import Mathlib

set_option maxHeartbeats 1000000

/-!
Verification development for the BallDrop marble-race server.

The embedding translates the race-logic portions of the TypeScript sources:
  * the progress projector `calculateProgress` (src/server.ts, src/unnamed/part_002),
  * the per-tick race update loop (stall monitor, finish detection, ranking),
  * the race lifecycle event handlers (`startRace`, `removePlayer`, the countdown
    interval callback, the finalize debounce callback, `finalizeRace`),
  * the physics-body construction of `setupMap` (obstacles, pegs, bumpers),
  * the client-side leader-tracking hysteresis loop (src/src/App.tsx).

JavaScript numbers are modelled as exact reals; timestamps in milliseconds as
integers; the physics engine is opaque, so per-tick body transforms enter the
model as an oracle.
-/

namespace BallDrop

/-- Planar vector with real coordinates, the `Vector2` interface of src/types. -/
structure Vec2 where
  x : ℝ
  y : ℝ

/-- Accumulator of the `calculateProgress` loop: the running variables
`totalProgress`, `minDistance` (initialised to `Infinity`, modelled as `⊤` in
`WithTop ℝ`) and `bestProgress`. -/
structure ProgressAcc where
  totalProgress : ℝ
  minDistance : WithTop ℝ
  bestProgress : ℝ

/-- Local `dx` of a path segment: `p2.x - p1.x`. -/
noncomputable def segDx (s : Vec2 × Vec2) : ℝ := s.2.x - s.1.x

/-- Local `dy` of a path segment: `p2.y - p1.y`. -/
noncomputable def segDy (s : Vec2 × Vec2) : ℝ := s.2.y - s.1.y

/-- Local `lengthSq` of a path segment: `dx * dx + dy * dy`. -/
noncomputable def segLengthSq (s : Vec2 × Vec2) : ℝ :=
  segDx s * segDx s + segDy s * segDy s

/-- Local `length` of a path segment: `Math.sqrt(lengthSq)`. -/
noncomputable def segLength (s : Vec2 × Vec2) : ℝ := Real.sqrt (segLengthSq s)

/-- The clamped projection parameter `t` of `calculateProgress`:
`t = ((pos.x - p1.x) * dx + (pos.y - p1.y) * dy) / lengthSq` followed by
`t = Math.max(0, Math.min(1, t))`. -/
noncomputable def segT (pos : Vec2) (s : Vec2 × Vec2) : ℝ :=
  max 0 (min 1 (((pos.x - s.1.x) * segDx s + (pos.y - s.1.y) * segDy s) / segLengthSq s))

/-- Local `closestX = p1.x + t * dx`. -/
noncomputable def segClosestX (pos : Vec2) (s : Vec2 × Vec2) : ℝ :=
  s.1.x + segT pos s * segDx s

/-- Local `closestY = p1.y + t * dy`. -/
noncomputable def segClosestY (pos : Vec2) (s : Vec2 × Vec2) : ℝ :=
  s.1.y + segT pos s * segDy s

/-- Local `distSq = Math.pow(pos.x - closestX, 2) + Math.pow(pos.y - closestY, 2)`. -/
noncomputable def segDistSq (pos : Vec2) (s : Vec2 × Vec2) : ℝ :=
  (pos.x - segClosestX pos s) ^ 2 + (pos.y - segClosestY pos s) ^ 2

/-- One iteration of the `for` loop of `calculateProgress` (src/server.ts:362-389):
skip zero-length segments (`if (lengthSq === 0) continue`), otherwise record the
candidate progress when this segment's squared distance beats the strict minimum
so far, and always accumulate the segment length into `totalProgress`. -/
noncomputable def segmentStep (pos : Vec2) (acc : ProgressAcc) (seg : Vec2 × Vec2) :
    ProgressAcc :=
  if segLengthSq seg = 0 then acc
  else
    let acc' :=
      if (segDistSq pos seg : WithTop ℝ) < acc.minDistance then
        { acc with
          minDistance := (segDistSq pos seg : WithTop ℝ)
          bestProgress := acc.totalProgress + segT pos seg * segLength seg }
      else acc
    { acc' with totalProgress := acc'.totalProgress + segLength seg }

/-- Consecutive waypoint pairs `(path[i], path[i+1])` of a polyline. -/
def segments (path : List Vec2) : List (Vec2 × Vec2) := path.zip path.tail

/-- The progress projector `calculateProgress(pos, path)` of src/server.ts:355-392
(identical in src/unnamed/part_002:540-577): fewer than 2 waypoints fall back to
`pos.y`; otherwise run the loop and return `bestProgress`. -/
noncomputable def calculateProgress (pos : Vec2) (path : List Vec2) : ℝ :=
  if path.length < 2 then pos.y
  else ((segments path).foldl (segmentStep pos) ⟨0, ⊤, 0⟩).bestProgress

/-- Candidate list stated from the spec's words (spec §4.2): for each
non-degenerate segment, the pair of its squared distance to the clamped
projection point and the value `sum of preceding segment lengths + t * length`;
zero-length segments are skipped and contribute no length. -/
noncomputable def progressCandidates (pos : Vec2) :
    List (Vec2 × Vec2) → ℝ → List (ℝ × ℝ)
  | [], _ => []
  | s :: rest, tot =>
    if segLengthSq s = 0 then progressCandidates pos rest tot
    else (segDistSq pos s, tot + segT pos s * segLength s) ::
      progressCandidates pos rest (tot + segLength s)

/-- Selection stated from the spec's words: take the candidate of the segment
with the strictly smallest squared distance, earlier segments winning ties
(a later candidate replaces the current one only when strictly closer). -/
noncomputable def selectClosest (best : ℝ) (m : WithTop ℝ) : List (ℝ × ℝ) → ℝ
  | [] => best
  | c :: rest =>
    if (c.1 : WithTop ℝ) < m then selectClosest c.2 (c.1 : WithTop ℝ) rest
    else selectClosest best m rest

/-- Progress projector as worded by the spec (spec §4.2): closest segment wins,
ties go to the earlier segment, degenerate segments are skipped, and paths with
fewer than 2 waypoints fall back to `pos.y`. -/
noncomputable def progressSpec (pos : Vec2) (path : List Vec2) : ℝ :=
  if path.length < 2 then pos.y
  else selectClosest 0 ⊤ (progressCandidates pos (segments path) 0)

lemma foldl_segmentStep_eq (pos : Vec2) :
    ∀ (L : List (Vec2 × Vec2)) (tot best : ℝ) (m : WithTop ℝ),
      (L.foldl (segmentStep pos) ⟨tot, m, best⟩).bestProgress
        = selectClosest best m (progressCandidates pos L tot) := by
  intro L
  induction L with
  | nil =>
    intro tot best m
    rfl
  | cons s rest ih =>
    intro tot best m
    by_cases h : segLengthSq s = 0
    · simp only [List.foldl_cons, segmentStep, h, if_true, progressCandidates, ih]
    · by_cases hlt : (segDistSq pos s : WithTop ℝ) < m
      · simp only [List.foldl_cons, segmentStep, h, if_false, hlt, if_true,
          progressCandidates, selectClosest, ih]
      · simp only [List.foldl_cons, segmentStep, h, if_false, hlt,
          progressCandidates, selectClosest, ih]

lemma calculateProgress_eq_progressSpec (pos : Vec2) (path : List Vec2) :
    calculateProgress pos path = progressSpec pos path := by
  unfold calculateProgress progressSpec
  by_cases h : path.length < 2
  · simp [h]
  · simp [h, foldl_segmentStep_eq]

lemma c1_scenario_center :
    calculateProgress ⟨400, 500⟩ [⟨400, 0⟩, ⟨400, 1000⟩] = 500 := by
  have hlsq : segLengthSq ((⟨400, 0⟩ : Vec2), (⟨400, 1000⟩ : Vec2)) = 1000000 := by
    norm_num [segLengthSq, segDx, segDy]
  have hlen : segLength ((⟨400, 0⟩ : Vec2), (⟨400, 1000⟩ : Vec2)) = 1000 := by
    rw [segLength, hlsq, show (1000000 : ℝ) = 1000 ^ 2 by norm_num,
      Real.sqrt_sq (by norm_num)]
  have ht : segT ⟨400, 500⟩ ((⟨400, 0⟩ : Vec2), (⟨400, 1000⟩ : Vec2)) = 1 / 2 := by
    rw [segT, hlsq]
    norm_num [segDx, segDy]
  have hd : segDistSq ⟨400, 500⟩ ((⟨400, 0⟩ : Vec2), (⟨400, 1000⟩ : Vec2)) = 0 := by
    rw [segDistSq, segClosestX, segClosestY, ht]
    norm_num [segDx, segDy]
  rw [calculateProgress, if_neg (by simp)]
  show (segmentStep ⟨400, 500⟩ ⟨0, ⊤, 0⟩ ((⟨400, 0⟩ : Vec2), (⟨400, 1000⟩ : Vec2))).bestProgress = 500
  rw [segmentStep, if_neg (by rw [hlsq]; norm_num)]
  simp only [hd, hlen, ht]
  rw [if_pos (by exact WithTop.coe_lt_top 0)]
  norm_num

lemma c1_scenario_lateral :
    calculateProgress ⟨450, 500⟩ [⟨400, 0⟩, ⟨400, 1000⟩] = 500 := by
  have hlsq : segLengthSq ((⟨400, 0⟩ : Vec2), (⟨400, 1000⟩ : Vec2)) = 1000000 := by
    norm_num [segLengthSq, segDx, segDy]
  have hlen : segLength ((⟨400, 0⟩ : Vec2), (⟨400, 1000⟩ : Vec2)) = 1000 := by
    rw [segLength, hlsq, show (1000000 : ℝ) = 1000 ^ 2 by norm_num,
      Real.sqrt_sq (by norm_num)]
  have ht : segT ⟨450, 500⟩ ((⟨400, 0⟩ : Vec2), (⟨400, 1000⟩ : Vec2)) = 1 / 2 := by
    rw [segT, hlsq]
    norm_num [segDx, segDy]
  have hd : segDistSq ⟨450, 500⟩ ((⟨400, 0⟩ : Vec2), (⟨400, 1000⟩ : Vec2)) = 2500 := by
    rw [segDistSq, segClosestX, segClosestY, ht]
    norm_num [segDx, segDy]
  rw [calculateProgress, if_neg (by simp)]
  show (segmentStep ⟨450, 500⟩ ⟨0, ⊤, 0⟩ ((⟨400, 0⟩ : Vec2), (⟨400, 1000⟩ : Vec2))).bestProgress = 500
  rw [segmentStep, if_neg (by rw [hlsq]; norm_num)]
  simp only [hd, hlen, ht]
  rw [if_pos (by exact WithTop.coe_lt_top 2500)]
  norm_num

/-- C1: `calculateProgress` returns, over all positions and paths, the value
described by the spec: the sum of the lengths of the segments preceding the
closest segment plus the clamped projection parameter times that segment's
length, where the closest segment minimises the squared distance to the clamped
projection point, zero-length segments are skipped, ties go to the earlier
segment, and a path with fewer than 2 waypoints falls back to `pos.y`
(`progressSpec` is built from those words); moreover on the path
`[(400,0),(400,1000)]` the positions `(400,500)` and `(450,500)` both yield
progress `500`. -/
theorem c1_calculateProgress_matches_spec :
    (∀ (pos : Vec2) (path : List Vec2),
        path.length < 2 → calculateProgress pos path = pos.y) ∧
    (∀ (pos : Vec2) (path : List Vec2),
        calculateProgress pos path = progressSpec pos path) ∧
    calculateProgress ⟨400, 500⟩ [⟨400, 0⟩, ⟨400, 1000⟩] = 500 ∧
    calculateProgress ⟨450, 500⟩ [⟨400, 0⟩, ⟨400, 1000⟩] = 500 := by
  refine ⟨?_, ?_, c1_scenario_center, c1_scenario_lateral⟩
  · intro pos path h
    rw [calculateProgress, if_pos h]
  · intro pos path
    exact calculateProgress_eq_progressSpec pos path

/-- Witness for C1: the short-path fallback evaluated at the empty path. -/
theorem c1_calculateProgress_matches_spec_witness :
    (([] : List Vec2)).length < 2 ∧ calculateProgress ⟨1, 2⟩ [] = 2 :=
  ⟨by simp, c1_calculateProgress_matches_spec.1 ⟨1, 2⟩ [] (by simp)⟩

lemma segmentStep_eval (pos : Vec2) (acc : ProgressAcc) (seg : Vec2 × Vec2)
    (hq : segLengthSq seg ≠ 0) :
    segmentStep pos acc seg =
      if (segDistSq pos seg : WithTop ℝ) < acc.minDistance then
        ⟨acc.totalProgress + segLength seg, (segDistSq pos seg : WithTop ℝ),
          acc.totalProgress + segT pos seg * segLength seg⟩
      else ⟨acc.totalProgress + segLength seg, acc.minDistance, acc.bestProgress⟩ := by
  rw [segmentStep, if_neg hq]
  by_cases h : (segDistSq pos seg : WithTop ℝ) < acc.minDistance
  · simp [h]
  · simp [h]

lemma calculateProgress_single (a p1 p2 : Vec2) (h : segLengthSq (p1, p2) ≠ 0) :
    calculateProgress a [p1, p2] = segT a (p1, p2) * segLength (p1, p2) := by
  rw [calculateProgress, if_neg (by simp)]
  show (segmentStep a ⟨0, ⊤, 0⟩ (p1, p2)).bestProgress = _
  rw [segmentStep_eval a ⟨0, ⊤, 0⟩ (p1, p2) h,
    if_pos (WithTop.coe_lt_top (segDistSq a (p1, p2)))]
  simp

lemma clamp_sub_le {x y : ℝ} (h : x ≤ y) :
    max 0 (min 1 y) - max 0 (min 1 x) ≤ y - x := by
  rcases le_total 1 x with h1 | h1
  · rw [min_eq_left h1, min_eq_left (le_trans h1 h)]
    linarith
  · rcases le_total 1 y with h2 | h2
    · rw [min_eq_right h1, min_eq_left h2, max_eq_right (zero_le_one)]
      have hx := le_max_right (0 : ℝ) x
      linarith
    · rw [min_eq_right h1, min_eq_right h2]
      rcases le_total y 0 with h4 | h4
      · rw [max_eq_left h4, max_eq_left (le_trans h h4)]
        linarith
      · rcases le_total x 0 with h3 | h3
        · rw [max_eq_right h4, max_eq_left h3]
          linarith
        · rw [max_eq_right h4, max_eq_right h3]

lemma clamp_mono {x y : ℝ} (h : x ≤ y) :
    max 0 (min 1 x) ≤ max 0 (min 1 y) :=
  max_le_max le_rfl (min_le_min le_rfl h)

lemma clamp_lipschitz (x y : ℝ) :
    |max 0 (min 1 x) - max 0 (min 1 y)| ≤ |x - y| := by
  rcases le_total x y with h | h
  · have h1 := clamp_sub_le h
    have h2 := clamp_mono h
    rw [abs_of_nonpos (by linarith), abs_of_nonpos (by linarith)]
    linarith
  · have h1 := clamp_sub_le h
    have h2 := clamp_mono h
    rw [abs_of_nonneg (by linarith), abs_of_nonneg (by linarith)]
    linarith

/-- C8 (amended part): on a path made of one single non-degenerate segment,
`calculateProgress` is 1-Lipschitz in the position: moving the test point by
`ε` (in any direction, in particular along the segment) changes the returned
progress by at most `ε`. -/
theorem c8_amended_single_segment_lipschitz (p1 p2 : Vec2)
    (hseg : segLengthSq (p1, p2) ≠ 0) (a b : Vec2) :
    |calculateProgress a [p1, p2] - calculateProgress b [p1, p2]|
      ≤ Real.sqrt ((a.x - b.x) ^ 2 + (a.y - b.y) ^ 2) := by
  have hq0 : 0 ≤ segLengthSq (p1, p2) := by
    unfold segLengthSq
    exact add_nonneg (mul_self_nonneg _) (mul_self_nonneg _)
  have hq : 0 < segLengthSq (p1, p2) := lt_of_le_of_ne hq0 (Ne.symm hseg)
  have hL0 : 0 < segLength (p1, p2) := Real.sqrt_pos.2 hq
  have hLsq : segLength (p1, p2) * segLength (p1, p2) = segLengthSq (p1, p2) :=
    Real.mul_self_sqrt hq0
  rw [calculateProgress_single a p1 p2 hseg, calculateProgress_single b p1 p2 hseg,
    ← sub_mul, abs_mul, abs_of_pos hL0]
  have hdot : ((a.x - p1.x) * segDx (p1, p2) + (a.y - p1.y) * segDy (p1, p2))
        / segLengthSq (p1, p2)
      - ((b.x - p1.x) * segDx (p1, p2) + (b.y - p1.y) * segDy (p1, p2))
        / segLengthSq (p1, p2)
      = ((a.x - b.x) * segDx (p1, p2) + (a.y - b.y) * segDy (p1, p2))
        / segLengthSq (p1, p2) := by
    field_simp
    ring
  have hclamp : |segT a (p1, p2) - segT b (p1, p2)|
      ≤ |((a.x - b.x) * segDx (p1, p2) + (a.y - b.y) * segDy (p1, p2))|
        / segLengthSq (p1, p2) := by
    rw [segT, segT]
    calc |max 0 (min 1 (((a.x - p1.x) * segDx (p1, p2) + (a.y - p1.y) * segDy (p1, p2))
            / segLengthSq (p1, p2)))
          - max 0 (min 1 (((b.x - p1.x) * segDx (p1, p2) + (b.y - p1.y) * segDy (p1, p2))
            / segLengthSq (p1, p2)))|
        ≤ |((a.x - p1.x) * segDx (p1, p2) + (a.y - p1.y) * segDy (p1, p2))
            / segLengthSq (p1, p2)
          - ((b.x - p1.x) * segDx (p1, p2) + (b.y - p1.y) * segDy (p1, p2))
            / segLengthSq (p1, p2)| := clamp_lipschitz _ _
      _ = |((a.x - b.x) * segDx (p1, p2) + (a.y - b.y) * segDy (p1, p2))
            / segLengthSq (p1, p2)| := by rw [hdot]
      _ = |((a.x - b.x) * segDx (p1, p2) + (a.y - b.y) * segDy (p1, p2))|
            / segLengthSq (p1, p2) := by
          rw [abs_div, abs_of_pos hq]
  have hCS : ((a.x - b.x) * segDx (p1, p2) + (a.y - b.y) * segDy (p1, p2)) ^ 2
      ≤ ((a.x - b.x) ^ 2 + (a.y - b.y) ^ 2) * segLengthSq (p1, p2) := by
    unfold segLengthSq
    nlinarith [sq_nonneg ((a.x - b.x) * segDy (p1, p2) - (a.y - b.y) * segDx (p1, p2))]
  have hN0 : 0 ≤ (a.x - b.x) ^ 2 + (a.y - b.y) ^ 2 := by positivity
  have hdotle : |((a.x - b.x) * segDx (p1, p2) + (a.y - b.y) * segDy (p1, p2))|
      ≤ Real.sqrt ((a.x - b.x) ^ 2 + (a.y - b.y) ^ 2) * segLength (p1, p2) := by
    rw [← Real.sqrt_sq_eq_abs]
    calc Real.sqrt (((a.x - b.x) * segDx (p1, p2) + (a.y - b.y) * segDy (p1, p2)) ^ 2)
        ≤ Real.sqrt (((a.x - b.x) ^ 2 + (a.y - b.y) ^ 2) * segLengthSq (p1, p2)) :=
          Real.sqrt_le_sqrt hCS
      _ = Real.sqrt ((a.x - b.x) ^ 2 + (a.y - b.y) ^ 2) * segLength (p1, p2) :=
          Real.sqrt_mul hN0 _
  calc |segT a (p1, p2) - segT b (p1, p2)| * segLength (p1, p2)
      ≤ (|((a.x - b.x) * segDx (p1, p2) + (a.y - b.y) * segDy (p1, p2))|
          / segLengthSq (p1, p2)) * segLength (p1, p2) :=
        mul_le_mul_of_nonneg_right hclamp hL0.le
    _ ≤ Real.sqrt ((a.x - b.x) ^ 2 + (a.y - b.y) ^ 2) := by
        rw [div_mul_eq_mul_div, div_le_iff₀ hq]
        calc |((a.x - b.x) * segDx (p1, p2) + (a.y - b.y) * segDy (p1, p2))|
              * segLength (p1, p2)
            ≤ (Real.sqrt ((a.x - b.x) ^ 2 + (a.y - b.y) ^ 2) * segLength (p1, p2))
              * segLength (p1, p2) := mul_le_mul_of_nonneg_right hdotle hL0.le
          _ = Real.sqrt ((a.x - b.x) ^ 2 + (a.y - b.y) ^ 2) * segLengthSq (p1, p2) := by
              rw [mul_assoc, hLsq]

/-- Witness for the amended C8 theorem, instantiated on the vertical course
segment from `(0,0)` to `(0,1000)`. -/
theorem c8_amended_single_segment_lipschitz_witness :
    segLengthSq ((⟨0, 0⟩ : Vec2), (⟨0, 1000⟩ : Vec2)) ≠ 0 ∧
    |calculateProgress ⟨400, 500⟩ [⟨0, 0⟩, ⟨0, 1000⟩]
        - calculateProgress ⟨450, 500⟩ [⟨0, 0⟩, ⟨0, 1000⟩]|
      ≤ Real.sqrt (((400 : ℝ) - 450) ^ 2 + ((500 : ℝ) - 500) ^ 2) :=
  ⟨by norm_num [segLengthSq, segDx, segDy],
    c8_amended_single_segment_lipschitz ⟨0, 0⟩ ⟨0, 1000⟩
      (by norm_num [segLengthSq, segDx, segDy]) ⟨400, 500⟩ ⟨450, 500⟩⟩

/-- Path whose third segment crosses back through the first one: the waypoints
are `(0,0), (8,0), (8,3), (0,-3)`, so the segment from `(8,3)` to `(0,-3)`
passes through the point `(4,0)` lying on the first segment. -/
noncomputable def crossPath : List Vec2 := [⟨0, 0⟩, ⟨8, 0⟩, ⟨8, 3⟩, ⟨0, -3⟩]

lemma cross_lsq1 : segLengthSq ((⟨0, 0⟩ : Vec2), (⟨8, 0⟩ : Vec2)) = 64 := by
  norm_num [segLengthSq, segDx, segDy]

lemma cross_lsq2 : segLengthSq ((⟨8, 0⟩ : Vec2), (⟨8, 3⟩ : Vec2)) = 9 := by
  norm_num [segLengthSq, segDx, segDy]

lemma cross_lsq3 : segLengthSq ((⟨8, 3⟩ : Vec2), (⟨0, -3⟩ : Vec2)) = 100 := by
  norm_num [segLengthSq, segDx, segDy]

lemma cross_len1 : segLength ((⟨0, 0⟩ : Vec2), (⟨8, 0⟩ : Vec2)) = 8 := by
  rw [segLength, cross_lsq1, show (64 : ℝ) = 8 ^ 2 by norm_num, Real.sqrt_sq (by norm_num)]

lemma cross_len2 : segLength ((⟨8, 0⟩ : Vec2), (⟨8, 3⟩ : Vec2)) = 3 := by
  rw [segLength, cross_lsq2, show (9 : ℝ) = 3 ^ 2 by norm_num, Real.sqrt_sq (by norm_num)]

lemma cross_len3 : segLength ((⟨8, 3⟩ : Vec2), (⟨0, -3⟩ : Vec2)) = 10 := by
  rw [segLength, cross_lsq3, show (100 : ℝ) = 10 ^ 2 by norm_num, Real.sqrt_sq (by norm_num)]

lemma cross_eval_p : calculateProgress ⟨4, 0⟩ crossPath = 4 := by
  have t1 : segT ⟨4, 0⟩ ((⟨0, 0⟩ : Vec2), (⟨8, 0⟩ : Vec2)) = 1 / 2 := by
    rw [segT, cross_lsq1]
    norm_num [segDx, segDy]
  have t2 : segT ⟨4, 0⟩ ((⟨8, 0⟩ : Vec2), (⟨8, 3⟩ : Vec2)) = 0 := by
    rw [segT, cross_lsq2]
    norm_num [segDx, segDy]
  have t3 : segT ⟨4, 0⟩ ((⟨8, 3⟩ : Vec2), (⟨0, -3⟩ : Vec2)) = 1 / 2 := by
    rw [segT, cross_lsq3]
    norm_num [segDx, segDy]
  have d1 : segDistSq ⟨4, 0⟩ ((⟨0, 0⟩ : Vec2), (⟨8, 0⟩ : Vec2)) = 0 := by
    rw [segDistSq, segClosestX, segClosestY, t1]
    norm_num [segDx, segDy]
  have d2 : segDistSq ⟨4, 0⟩ ((⟨8, 0⟩ : Vec2), (⟨8, 3⟩ : Vec2)) = 16 := by
    rw [segDistSq, segClosestX, segClosestY, t2]
    norm_num [segDx, segDy]
  have d3 : segDistSq ⟨4, 0⟩ ((⟨8, 3⟩ : Vec2), (⟨0, -3⟩ : Vec2)) = 0 := by
    rw [segDistSq, segClosestX, segClosestY, t3]
    norm_num [segDx, segDy]
  have e1 : segmentStep ⟨4, 0⟩ ⟨0, ⊤, 0⟩ ((⟨0, 0⟩ : Vec2), (⟨8, 0⟩ : Vec2))
      = ⟨8, ((0 : ℝ) : WithTop ℝ), 4⟩ := by
    rw [segmentStep_eval _ _ _ (by rw [cross_lsq1]; norm_num),
      if_pos (WithTop.coe_lt_top _), d1, t1, cross_len1]
    simp only [ProgressAcc.mk.injEq]
    norm_num
  have e2 : segmentStep ⟨4, 0⟩ ⟨8, ((0 : ℝ) : WithTop ℝ), 4⟩
      ((⟨8, 0⟩ : Vec2), (⟨8, 3⟩ : Vec2)) = ⟨11, ((0 : ℝ) : WithTop ℝ), 4⟩ := by
    have hc : ¬ ((segDistSq ⟨4, 0⟩ ((⟨8, 0⟩ : Vec2), (⟨8, 3⟩ : Vec2)) : WithTop ℝ)
        < (((0 : ℝ) : WithTop ℝ))) := by
      rw [d2]
      intro hlt
      exact absurd (WithTop.coe_lt_coe.1 hlt) (by norm_num)
    rw [segmentStep_eval _ _ _ (by rw [cross_lsq2]; norm_num), if_neg hc, cross_len2]
    simp only [ProgressAcc.mk.injEq]
    norm_num
  have e3 : segmentStep ⟨4, 0⟩ ⟨11, ((0 : ℝ) : WithTop ℝ), 4⟩
      ((⟨8, 3⟩ : Vec2), (⟨0, -3⟩ : Vec2)) = ⟨21, ((0 : ℝ) : WithTop ℝ), 4⟩ := by
    have hc : ¬ ((segDistSq ⟨4, 0⟩ ((⟨8, 3⟩ : Vec2), (⟨0, -3⟩ : Vec2)) : WithTop ℝ)
        < (((0 : ℝ) : WithTop ℝ))) := by
      rw [d3]
      exact lt_irrefl _
    rw [segmentStep_eval _ _ _ (by rw [cross_lsq3]; norm_num), if_neg hc, cross_len3]
    simp only [ProgressAcc.mk.injEq]
    norm_num
  rw [calculateProgress, if_neg (by norm_num [crossPath])]
  show ((segments crossPath).foldl (segmentStep ⟨4, 0⟩) ⟨0, ⊤, 0⟩).bestProgress = 4
  rw [show segments crossPath = [((⟨0, 0⟩ : Vec2), (⟨8, 0⟩ : Vec2)),
    ((⟨8, 0⟩ : Vec2), (⟨8, 3⟩ : Vec2)), ((⟨8, 3⟩ : Vec2), (⟨0, -3⟩ : Vec2))] from rfl]
  rw [List.foldl_cons, e1, List.foldl_cons, e2, List.foldl_cons, e3, List.foldl_nil]

lemma cross_eval_q : calculateProgress ⟨2, -(3 / 2)⟩ crossPath = 37 / 2 := by
  have t1 : segT ⟨2, -(3 / 2)⟩ ((⟨0, 0⟩ : Vec2), (⟨8, 0⟩ : Vec2)) = 1 / 4 := by
    rw [segT, cross_lsq1]
    norm_num [segDx, segDy]
  have t2 : segT ⟨2, -(3 / 2)⟩ ((⟨8, 0⟩ : Vec2), (⟨8, 3⟩ : Vec2)) = 0 := by
    rw [segT, cross_lsq2]
    norm_num [segDx, segDy]
  have t3 : segT ⟨2, -(3 / 2)⟩ ((⟨8, 3⟩ : Vec2), (⟨0, -3⟩ : Vec2)) = 3 / 4 := by
    rw [segT, cross_lsq3]
    norm_num [segDx, segDy]
  have d1 : segDistSq ⟨2, -(3 / 2)⟩ ((⟨0, 0⟩ : Vec2), (⟨8, 0⟩ : Vec2)) = 9 / 4 := by
    rw [segDistSq, segClosestX, segClosestY, t1]
    norm_num [segDx, segDy]
  have d2 : segDistSq ⟨2, -(3 / 2)⟩ ((⟨8, 0⟩ : Vec2), (⟨8, 3⟩ : Vec2)) = 153 / 4 := by
    rw [segDistSq, segClosestX, segClosestY, t2]
    norm_num [segDx, segDy]
  have d3 : segDistSq ⟨2, -(3 / 2)⟩ ((⟨8, 3⟩ : Vec2), (⟨0, -3⟩ : Vec2)) = 0 := by
    rw [segDistSq, segClosestX, segClosestY, t3]
    norm_num [segDx, segDy]
  have e1 : segmentStep ⟨2, -(3 / 2)⟩ ⟨0, ⊤, 0⟩ ((⟨0, 0⟩ : Vec2), (⟨8, 0⟩ : Vec2))
      = ⟨8, ((9 / 4 : ℝ) : WithTop ℝ), 2⟩ := by
    rw [segmentStep_eval _ _ _ (by rw [cross_lsq1]; norm_num),
      if_pos (WithTop.coe_lt_top _), d1, t1, cross_len1]
    simp only [ProgressAcc.mk.injEq]
    norm_num
  have e2 : segmentStep ⟨2, -(3 / 2)⟩ ⟨8, ((9 / 4 : ℝ) : WithTop ℝ), 2⟩
      ((⟨8, 0⟩ : Vec2), (⟨8, 3⟩ : Vec2)) = ⟨11, ((9 / 4 : ℝ) : WithTop ℝ), 2⟩ := by
    have hc : ¬ ((segDistSq ⟨2, -(3 / 2)⟩ ((⟨8, 0⟩ : Vec2), (⟨8, 3⟩ : Vec2)) : WithTop ℝ)
        < (((9 / 4 : ℝ) : WithTop ℝ))) := by
      rw [d2]
      intro hlt
      exact absurd (WithTop.coe_lt_coe.1 hlt) (by norm_num)
    rw [segmentStep_eval _ _ _ (by rw [cross_lsq2]; norm_num), if_neg hc, cross_len2]
    simp only [ProgressAcc.mk.injEq]
    norm_num
  have e3 : segmentStep ⟨2, -(3 / 2)⟩ ⟨11, ((9 / 4 : ℝ) : WithTop ℝ), 2⟩
      ((⟨8, 3⟩ : Vec2), (⟨0, -3⟩ : Vec2)) = ⟨21, ((0 : ℝ) : WithTop ℝ), 37 / 2⟩ := by
    have hc : ((segDistSq ⟨2, -(3 / 2)⟩ ((⟨8, 3⟩ : Vec2), (⟨0, -3⟩ : Vec2)) : WithTop ℝ)
        < (((9 / 4 : ℝ) : WithTop ℝ))) := by
      rw [d3]
      exact WithTop.coe_lt_coe.2 (by norm_num)
    rw [segmentStep_eval _ _ _ (by rw [cross_lsq3]; norm_num), if_pos hc, d3, t3, cross_len3]
    simp only [ProgressAcc.mk.injEq]
    norm_num
  rw [calculateProgress, if_neg (by norm_num [crossPath])]
  show ((segments crossPath).foldl (segmentStep ⟨2, -(3 / 2)⟩) ⟨0, ⊤, 0⟩).bestProgress = 37 / 2
  rw [show segments crossPath = [((⟨0, 0⟩ : Vec2), (⟨8, 0⟩ : Vec2)),
    ((⟨8, 0⟩ : Vec2), (⟨8, 3⟩ : Vec2)), ((⟨8, 3⟩ : Vec2), (⟨0, -3⟩ : Vec2))] from rfl]
  rw [List.foldl_cons, e1, List.foldl_cons, e2, List.foldl_cons, e3, List.foldl_nil]

/-- C8 counterexample: on the 4-waypoint path `[(0,0),(8,0),(8,3),(0,-3)]`, the
test points `(4,0)` and `(2,-3/2)` both lie on the third segment (at clamped
parameters `1/2` and `3/4`, as the third and fourth conjuncts certify), at
distance `5/2` from each other, yet `calculateProgress` jumps from `4` to
`37/2` between them — a change of `29/2 > 5/2`, refuting the claimed bound
"moving a test point by ε along a segment changes progress by at most ε". -/
theorem c8_counterexample :
    calculateProgress ⟨4, 0⟩ crossPath = 4 ∧
    calculateProgress ⟨2, -(3 / 2)⟩ crossPath = 37 / 2 ∧
    ((4 : ℝ) = 8 + (1 / 2) * (0 - 8) ∧ (0 : ℝ) = 3 + (1 / 2) * (-3 - 3)) ∧
    ((2 : ℝ) = 8 + (3 / 4) * (0 - 8) ∧ (-(3 / 2) : ℝ) = 3 + (3 / 4) * (-3 - 3)) ∧
    Real.sqrt (((4 : ℝ) - 2) ^ 2 + ((0 : ℝ) - -(3 / 2)) ^ 2) = 5 / 2 ∧
    ¬ (|calculateProgress ⟨2, -(3 / 2)⟩ crossPath - calculateProgress ⟨4, 0⟩ crossPath|
        ≤ Real.sqrt (((4 : ℝ) - 2) ^ 2 + ((0 : ℝ) - -(3 / 2)) ^ 2)) := by
  have hdist : Real.sqrt (((4 : ℝ) - 2) ^ 2 + ((0 : ℝ) - -(3 / 2)) ^ 2) = 5 / 2 := by
    rw [show ((4 : ℝ) - 2) ^ 2 + ((0 : ℝ) - -(3 / 2)) ^ 2 = (5 / 2) ^ 2 by norm_num,
      Real.sqrt_sq (by norm_num)]
  refine ⟨cross_eval_p, cross_eval_q, by norm_num, by norm_num, hdist, ?_⟩
  rw [cross_eval_p, cross_eval_q, hdist]
  intro h
  rw [show (37 : ℝ) / 2 - 4 = 29 / 2 by norm_num] at h
  rw [abs_of_nonneg (by norm_num : (0 : ℝ) ≤ 29 / 2)] at h
  exact absurd h (by norm_num)

/-- Racer data consumed by the client leader tracker (src/src/App.tsx): id and
scalar course progress of one ball from a race snapshot. -/
structure BallInfo where
  id : String
  progress : ℝ

/-- Persistent state of the leader tracker across animation frames:
`trackedLeaderIdRef` and `pendingLeaderRef` (candidate id plus the
`performance.now()` timestamp at which it was first proposed). -/
structure LeaderState where
  tracked : Option String
  pending : Option (String × ℝ)

/-- Head of the progress-descending stable sort of `b0 :: rest`
(`sortedByProgress[0]` in App.tsx): the earliest ball attaining the maximal
progress, since a later ball replaces the running maximum only when strictly
greater. -/
noncomputable def topBallOf (b0 : BallInfo) (rest : List BallInfo) : BallInfo :=
  rest.foldl (fun acc b => if b.progress > acc.progress then b else acc) b0

/-- One observation step of the leader tracker, the camera-follow block of the
game loop in src/src/App.tsx:100-149, with margin 10 course units and grace
period 140 ms. An empty ball set resets both refs; otherwise a decisive gap
(> 10) switches immediately, a marginal change is committed only once the same
pending candidate has persisted for at least 140 ms, and a reaffirmed leader
clears the pending candidate. -/
noncomputable def observeLeader (balls : List BallInfo) (now : ℝ)
    (st : LeaderState) : LeaderState :=
  match balls with
  | [] => { tracked := none, pending := none }
  | b0 :: rest =>
    let topBall := topBallOf b0 rest
    let tracked0 := st.tracked.getD topBall.id
    let currentTracked := ((b0 :: rest).find? (fun bb => bb.id == tracked0)).getD topBall
    if topBall.id ≠ currentTracked.id then
      if topBall.progress - currentTracked.progress > 10 then
        { tracked := some topBall.id, pending := none }
      else
        match st.pending with
        | some pend =>
          if pend.1 = topBall.id then
            if now - pend.2 ≥ 140 then
              { tracked := some topBall.id, pending := none }
            else
              { tracked := some tracked0, pending := some pend }
          else
            { tracked := some tracked0, pending := some (topBall.id, now) }
        | none => { tracked := some tracked0, pending := some (topBall.id, now) }
    else { tracked := some tracked0, pending := none }

/-- C5: behaviour of one leader-tracker observation with a non-empty racer set
whose tracked leader is present among the racers. With `top` the max-progress
racer: a gap above 10 units switches the tracked leader immediately and clears
the pending candidate; a gap of at most 10 switches only once `top` has been
the pending candidate for at least 140 ms (a younger matching candidate leaves
the state untouched, and a missing or different candidate starts a pending
record for `top` at the current time); and when `top` already is the tracked
leader the pending candidate is cleared and the leader kept. -/
theorem c5_leader_tracker_hysteresis (b0 : BallInfo) (rest : List BallInfo)
    (now : ℝ) (st : LeaderState) (t : String) (tb : BallInfo)
    (htr : st.tracked = some t)
    (hfind : (b0 :: rest).find? (fun bb => bb.id == t) = some tb) :
    ((topBallOf b0 rest).id = t →
      observeLeader (b0 :: rest) now st
        = { tracked := some t, pending := none }) ∧
    ((topBallOf b0 rest).id ≠ t →
      (((topBallOf b0 rest).progress - tb.progress > 10 →
          observeLeader (b0 :: rest) now st
            = { tracked := some (topBallOf b0 rest).id, pending := none }) ∧
        ((topBallOf b0 rest).progress - tb.progress ≤ 10 →
          (∀ since : ℝ, st.pending = some ((topBallOf b0 rest).id, since) →
              now - since ≥ 140 →
              observeLeader (b0 :: rest) now st
                = { tracked := some (topBallOf b0 rest).id, pending := none }) ∧
          (∀ since : ℝ, st.pending = some ((topBallOf b0 rest).id, since) →
              now - since < 140 →
              observeLeader (b0 :: rest) now st
                = { tracked := some t, pending := some ((topBallOf b0 rest).id, since) }) ∧
          ((∀ pid : String, ∀ since : ℝ, st.pending = some (pid, since) →
                pid ≠ (topBallOf b0 rest).id) →
            observeLeader (b0 :: rest) now st
              = { tracked := some t,
                  pending := some ((topBallOf b0 rest).id, now) })))) := by
  have hid : tb.id = t := by
    have := List.find?_some hfind
    simpa using this
  constructor
  · intro heq
    have heq2 : (topBallOf b0 rest).id = tb.id := heq.trans hid.symm
    simp only [observeLeader]
    rw [htr]
    simp only [Option.getD_some]
    rw [hfind]
    simp only [Option.getD_some]
    rw [if_neg (not_not_intro heq2)]
  intro hne
  have hne2 : (topBallOf b0 rest).id ≠ tb.id := by
    rw [hid]
    exact hne
  constructor
  · intro hgap
    simp only [observeLeader]
    rw [htr]
    simp only [Option.getD_some]
    rw [hfind]
    simp only [Option.getD_some]
    rw [if_pos hne2, if_pos hgap]
  · intro hle
    refine ⟨?_, ?_, ?_⟩
    · intro since hpend h140
      simp only [observeLeader]
      rw [htr]
      simp only [Option.getD_some]
      rw [hfind]
      simp only [Option.getD_some]
      rw [if_pos hne2, if_neg (not_lt.2 hle), hpend]
      simp [h140]
    · intro since hpend h140
      simp only [observeLeader]
      rw [htr]
      simp only [Option.getD_some]
      rw [hfind]
      simp only [Option.getD_some]
      rw [if_pos hne2, if_neg (not_lt.2 hle), hpend]
      simp [not_le.mpr h140]
    · intro hmis
      simp only [observeLeader]
      rw [htr]
      simp only [Option.getD_some]
      rw [hfind]
      simp only [Option.getD_some]
      rw [if_pos hne2, if_neg (not_lt.2 hle)]
      rcases hp : st.pending with _ | ⟨pid, since⟩
      · simp
      · have hpidne : pid ≠ (topBallOf b0 rest).id := hmis pid since hp
        simp [hpidne]

/-- Witness for C5: leader A at progress 100, challenger B at 105 (gap 5 is
within the margin) with no pending candidate: the tracked leader stays A and a
pending record for B is started at the current timestamp. And when B already
is the tracked leader, a stale pending candidate is cleared and the leader
kept. -/
theorem c5_leader_tracker_hysteresis_witness :
    observeLeader [⟨"A", 100⟩, ⟨"B", 105⟩] 1000
        { tracked := some "A", pending := none }
      = { tracked := some "A", pending := some ("B", 1000) } ∧
    observeLeader [⟨"A", 100⟩, ⟨"B", 105⟩] 1000
        { tracked := some "B", pending := some ("A", 900) }
      = { tracked := some "B", pending := none } := by
  have htop : topBallOf ⟨"A", (100 : ℝ)⟩ [⟨"B", 105⟩] = ⟨"B", 105⟩ := by
    norm_num [topBallOf]
  constructor
  · have h := c5_leader_tracker_hysteresis ⟨"A", 100⟩ [⟨"B", 105⟩] 1000
      { tracked := some "A", pending := none } "A" ⟨"A", 100⟩ rfl rfl
    rw [htop] at h
    have h2 := (h.2 (by decide)).2 (by norm_num)
    exact h2.2.2 (fun pid since hps => Option.noConfusion hps)
  · have h := c5_leader_tracker_hysteresis ⟨"A", 100⟩ [⟨"B", 105⟩] 1000
      { tracked := some "B", pending := some ("A", 900) } "B" ⟨"B", 105⟩ rfl rfl
    rw [htop] at h
    exact h.1 rfl

/-- Race lifecycle status (src/types `RaceState.status`). -/
inductive RaceStatus
  | waiting
  | countdown
  | racing
  | finished
  deriving DecidableEq

/-- Per-racer race-state record, the `BallState` interface of src/types.
`finishTime` is elapsed milliseconds, `rank` is assigned on finishing. -/
structure Ball where
  id : String
  position : Vec2
  velocity : Vec2
  angle : ℝ
  progress : ℝ
  finished : Bool
  finishTime : Option ℤ
  rank : Option ℕ

/-- Transform read back from a physics body after the engine step. The solver
is opaque, so these values enter the tick as an oracle indexed by racer id. -/
structure BodyRead where
  position : Vec2
  velocity : Vec2
  angle : ℝ

/-- Kind of random impulse the update loop can apply to a body: the stall-
recovery nudge (`stuckTime > 120` branch) or the periodic anti-balance jitter
(`now % 3000 < 20` branch). -/
inductive ImpulseKind
  | stallNudge
  | periodicJitter
  deriving DecidableEq

/-- First value bound to `id` in an association list of balls, mirroring a
JavaScript object/Map lookup (`raceState.balls[id]`). -/
def findBall (id : String) : List (String × Ball) → Option Ball
  | [] => none
  | (k, b) :: rest => if k = id then some b else findBall id rest

/-- In-place mutation of the entry bound to `id` (`raceState.balls[id] = ...`);
keys are unchanged. -/
def updateBall (id : String) (f : Ball → Ball) :
    List (String × Ball) → List (String × Ball)
  | [] => []
  | (k, b) :: rest =>
    (if k = id then (k, f b) else (k, b)) :: updateBall id f rest

/-- Count `Object.values(raceState.balls).filter(b => b.finished).length`. -/
def finCount (bs : List (String × Ball)) : ℕ :=
  (bs.filter fun p => p.2.finished).length

/-- Multiset of the ranks carried by the finished balls. -/
def ranksOf (bs : List (String × Ball)) : Multiset ℕ :=
  ↑(bs.filterMap fun p => if p.2.finished then p.2.rank else none)

/-- Keys of the balls map. -/
def ballKeys (bs : List (String × Ball)) : List String := bs.map Prod.fst

/-- Test `Object.values(raceState.balls).some(ball => ball.finished)`. -/
def anyFinished (bs : List (String × Ball)) : Bool := bs.any fun p => p.2.finished

/-- Server-side mutable state of the race engine (the module-level variables of
the socket servers): the `RaceState` fields, the physics-body key set
(`ballBodies`, iterated in insertion order), the stall counters
(`ballStuckTime`, absent keys read as 0), whether the 500 ms finalize debounce
timer is pending (`raceEndTimeout`), whether the 1 s countdown interval is
live (`countdownInterval`), and the contestant roster keys (`players`). -/
structure ServerState where
  status : RaceStatus
  countdown : ℤ
  balls : List (String × Ball)
  startTime : Option ℤ
  ballBodies : List String
  ballStuckTime : String → ℕ
  raceEndTimeout : Bool
  countdownInterval : Bool
  players : List String

/-- Body of the per-ball `for` loop of `update()` (src/server.ts:412-456):
skip ids whose ball record is missing; leave finished balls untouched;
otherwise write back position/velocity/angle, recompute progress, run the
stall monitor (increment the counter below speed 0.2, emit one nudge and reset
once the counter exceeds 120, reset on fast ticks with an occasional periodic
jitter), and run the finish check which stamps `finished`, `finishTime` and
`rank = count of finished balls after this one is marked finished`. -/
noncomputable def processBall (path : List Vec2) (finishY : ℝ)
    (bodies : String → BodyRead) (now : ℤ)
    (st : ServerState × List (String × ImpulseKind)) (id : String) :
    ServerState × List (String × ImpulseKind) :=
  match findBall id st.1.balls with
  | none => st
  | some ball =>
    if ball.finished then st
    else
      let body := bodies id
      let b1 : Ball :=
        { ball with
          position := body.position
          velocity := body.velocity
          angle := body.angle
          progress := calculateProgress body.position path }
      let speed := Real.sqrt (body.velocity.x ^ 2 + body.velocity.y ^ 2)
      let stuckNew : String → ℕ :=
        if speed < 0.2 then
          if st.1.ballStuckTime id + 1 > 120 then
            fun j => if j = id then 0 else st.1.ballStuckTime j
          else
            fun j => if j = id then st.1.ballStuckTime id + 1 else st.1.ballStuckTime j
        else fun j => if j = id then 0 else st.1.ballStuckTime j
      let imps :=
        if speed < 0.2 then
          if st.1.ballStuckTime id + 1 > 120 then
            st.2 ++ [(id, ImpulseKind.stallNudge)]
          else st.2
        else
          if now % 3000 < 20 then st.2 ++ [(id, ImpulseKind.periodicJitter)] else st.2
      let balls2 :=
        if b1.position.y > finishY then
          let bf : Ball :=
            { b1 with
              finished := true
              finishTime := some (now - st.1.startTime.getD now) }
          let ballsF := updateBall id (fun _ => bf) st.1.balls
          updateBall id (fun _ => { bf with rank := some (finCount ballsF) }) ballsF
        else updateBall id (fun _ => b1) st.1.balls
      ({ st.1 with balls := balls2, ballStuckTime := stuckNew }, imps)

/-- Tail of `update()` (src/server.ts:458-464): once some ball has finished and
no finalize debounce timer is pending, schedule one. -/
noncomputable def maybeScheduleEnd (out : ServerState × List (String × ImpulseKind)) :
    ServerState × List (String × ImpulseKind) :=
  if anyFinished out.1.balls = true ∧ out.1.raceEndTimeout = false then
    ({ out.1 with raceEndTimeout := true }, out.2)
  else out

/-- One invocation of `update()` (src/server.ts:394-468), parameterised by the
current course path and finish-zone leading edge: a no-op unless the status is
`racing`; otherwise every ball body is processed in insertion order and the
finalize debounce may be scheduled. Applied random impulses are returned so
their multiplicity can be observed. -/
noncomputable def raceTick (path : List Vec2) (finishY : ℝ)
    (bodies : String → BodyRead) (now : ℤ) (s : ServerState) :
    ServerState × List (String × ImpulseKind) :=
  if s.status = RaceStatus.racing then
    maybeScheduleEnd (s.ballBodies.foldl (processBall path finishY bodies now) (s, []))
  else (s, [])

/-- Physics oracle and wall clock for one tick. -/
structure TickInput where
  bodies : String → BodyRead
  now : ℤ

/-- A sequence of tick updates. -/
noncomputable def runTicks (path : List Vec2) (finishY : ℝ)
    (inputs : List TickInput) (s : ServerState) : ServerState :=
  inputs.foldl (fun st i => (raceTick path finishY i.bodies i.now st).1) s

lemma maybeScheduleEnd_fst_ballStuckTime (out : ServerState × List (String × ImpulseKind)) :
    (maybeScheduleEnd out).1.ballStuckTime = out.1.ballStuckTime := by
  rw [maybeScheduleEnd]
  split <;> rfl

lemma maybeScheduleEnd_fst_balls (out : ServerState × List (String × ImpulseKind)) :
    (maybeScheduleEnd out).1.balls = out.1.balls := by
  rw [maybeScheduleEnd]
  split <;> rfl

lemma maybeScheduleEnd_snd (out : ServerState × List (String × ImpulseKind)) :
    (maybeScheduleEnd out).2 = out.2 := by
  rw [maybeScheduleEnd]
  split <;> rfl

lemma updateBall_cons_pos {id k : String} {b : Ball} {rest : List (String × Ball)}
    (f : Ball → Ball) (h : k = id) :
    updateBall id f ((k, b) :: rest) = (k, f b) :: updateBall id f rest := by
  simp [updateBall, h]

lemma updateBall_cons_neg {id k : String} {b : Ball} {rest : List (String × Ball)}
    (f : Ball → Ball) (h : ¬ k = id) :
    updateBall id f ((k, b) :: rest) = (k, b) :: updateBall id f rest := by
  simp [updateBall, h]

lemma findBall_cons_pos {id k : String} {b : Ball} {rest : List (String × Ball)}
    (h : k = id) : findBall id ((k, b) :: rest) = some b := by
  simp [findBall, h]

lemma findBall_cons_neg {id k : String} {b : Ball} {rest : List (String × Ball)}
    (h : ¬ k = id) : findBall id ((k, b) :: rest) = findBall id rest := by
  simp [findBall, h]

lemma findBall_updateBall_ne (id id' : String) (h : id ≠ id') (f : Ball → Ball) :
    ∀ bs, findBall id (updateBall id' f bs) = findBall id bs := by
  intro bs
  induction bs with
  | nil => rfl
  | cons p rest ih =>
    rcases p with ⟨k, b⟩
    by_cases hk : k = id'
    · have hki : ¬ k = id := fun e => h (by rw [← e]; exact hk)
      rw [updateBall_cons_pos f hk, findBall_cons_neg hki, findBall_cons_neg hki, ih]
    · by_cases hk2 : k = id
      · rw [updateBall_cons_neg f hk, findBall_cons_pos hk2, findBall_cons_pos hk2]
      · rw [updateBall_cons_neg f hk, findBall_cons_neg hk2, findBall_cons_neg hk2, ih]

lemma findBall_updateBall_self (id : String) (f : Ball → Ball) :
    ∀ bs, findBall id (updateBall id f bs) = (findBall id bs).map f := by
  intro bs
  induction bs with
  | nil => rfl
  | cons p rest ih =>
    rcases p with ⟨k, b⟩
    by_cases hk : k = id
    · rw [updateBall_cons_pos f hk, findBall_cons_pos hk, findBall_cons_pos hk]
      rfl
    · rw [updateBall_cons_neg f hk, findBall_cons_neg hk, findBall_cons_neg hk, ih]

lemma updateBall_of_not_mem (id : String) (f : Ball → Ball) :
    ∀ bs, id ∉ ballKeys bs → updateBall id f bs = bs := by
  intro bs
  induction bs with
  | nil => intro _; rfl
  | cons p rest ih =>
    rcases p with ⟨k, b⟩
    intro h
    have h0 : id ∉ k :: ballKeys rest := h
    have h1 : ¬ k = id := fun e => h0 (by rw [e]; exact List.mem_cons_self _ _)
    have h2 : id ∉ ballKeys rest := fun hm => h0 (List.mem_cons_of_mem _ hm)
    rw [updateBall_cons_neg f h1, ih h2]

lemma ballKeys_updateBall (id : String) (f : Ball → Ball) :
    ∀ bs, ballKeys (updateBall id f bs) = ballKeys bs := by
  intro bs
  induction bs with
  | nil => rfl
  | cons p rest ih =>
    rcases p with ⟨k, b⟩
    by_cases hk : k = id
    · rw [updateBall_cons_pos f hk]
      show k :: ballKeys (updateBall id f rest) = k :: ballKeys rest
      rw [ih]
    · rw [updateBall_cons_neg f hk]
      show k :: ballKeys (updateBall id f rest) = k :: ballKeys rest
      rw [ih]

/-- Contribution of one ball to the multiset of assigned finisher ranks. -/
def rankContrib (b : Ball) : Multiset ℕ :=
  if b.finished then (match b.rank with | some r => {r} | none => 0) else 0

lemma finCount_cons (p : String × Ball) (bs : List (String × Ball)) :
    finCount (p :: bs) = (if p.2.finished then 1 else 0) + finCount bs := by
  by_cases hf : p.2.finished <;> simp [finCount, List.filter_cons, hf, Nat.add_comm]

lemma ranksOf_cons (p : String × Ball) (bs : List (String × Ball)) :
    ranksOf (p :: bs) = rankContrib p.2 + ranksOf bs := by
  rcases p with ⟨k, b⟩
  by_cases hf : b.finished
  · cases hr : b.rank with
    | none => simp [ranksOf, rankContrib, hf, hr, List.filterMap_cons]
    | some r =>
      simp [ranksOf, rankContrib, hf, hr, List.filterMap_cons,
        Multiset.cons_coe, Multiset.singleton_add]
  · simp [ranksOf, rankContrib, hf, List.filterMap_cons]

lemma updateBall_counts (id : String) (b' : Ball) :
    ∀ (bs : List (String × Ball)) (b : Ball), (ballKeys bs).Nodup →
      findBall id bs = some b →
      (finCount (updateBall id (fun _ => b') bs) + (if b.finished then 1 else 0)
        = finCount bs + (if b'.finished then 1 else 0))
      ∧ (ranksOf (updateBall id (fun _ => b') bs) + rankContrib b
        = ranksOf bs + rankContrib b') := by
  intro bs
  induction bs with
  | nil =>
    intro b _ hf
    exact absurd hf (by simp [findBall])
  | cons p rest ih =>
    intro b hnd hf
    rcases p with ⟨k, hb⟩
    have hnd0 : (k :: ballKeys rest).Nodup := hnd
    have hnd1 : k ∉ ballKeys rest := (List.nodup_cons.mp hnd0).1
    have hnd2 : (ballKeys rest).Nodup := (List.nodup_cons.mp hnd0).2
    by_cases hk : k = id
    · have hb_eq : hb = b := by
        have hfc := hf
        rw [findBall_cons_pos hk] at hfc
        exact Option.some.inj hfc
      have hrest : updateBall id (fun _ => b') rest = rest :=
        updateBall_of_not_mem id (fun _ => b') rest (by rw [← hk]; exact hnd1)
      rw [updateBall_cons_pos (fun _ => b') hk, hrest, ← hb_eq]
      constructor
      · rw [finCount_cons, finCount_cons]
        split_ifs <;> omega
      · rw [ranksOf_cons, ranksOf_cons]
        show rankContrib b' + ranksOf rest + rankContrib hb
          = rankContrib hb + ranksOf rest + rankContrib b'
        rw [add_comm (rankContrib b') (ranksOf rest), add_comm (rankContrib hb) (ranksOf rest),
          add_assoc, add_assoc, add_comm (rankContrib b') (rankContrib hb)]
    · have hf' : findBall id rest = some b := by
        have hfc := hf
        rw [findBall_cons_neg hk] at hfc
        exact hfc
      obtain ⟨ih1, ih2⟩ := ih b hnd2 hf'
      rw [updateBall_cons_neg (fun _ => b') hk]
      constructor
      · rw [finCount_cons, finCount_cons]
        split_ifs at * <;> omega
      · rw [ranksOf_cons, ranksOf_cons, add_assoc, add_assoc, ih2]

/-- Well-formedness of the finisher ranks: the ball-map keys are distinct (they
are JavaScript object keys) and the multiset of ranks carried by finished balls
is exactly `{1, ..., N}` for `N` the number of finished balls. -/
def RanksWF (bs : List (String × Ball)) : Prop :=
  (ballKeys bs).Nodup ∧
    ranksOf bs = (Multiset.range (finCount bs)).map (fun r => r + 1)

lemma ranksWF_updateBall_preserve {bs : List (String × Ball)} {id : String} {b : Ball}
    (hwf : RanksWF bs) (hfb : findBall id bs = some b)
    (b' : Ball) (hfineq : b'.finished = b.finished) (hrankeq : b'.rank = b.rank) :
    RanksWF (updateBall id (fun _ => b') bs) := by
  obtain ⟨h1, h2⟩ := updateBall_counts id b' bs b hwf.1 hfb
  refine ⟨by rw [ballKeys_updateBall]; exact hwf.1, ?_⟩
  have hcc : rankContrib b' = rankContrib b := by
    rw [rankContrib, rankContrib, hfineq, hrankeq]
  have hfc : finCount (updateBall id (fun _ => b') bs) = finCount bs := by
    rw [hfineq] at h1
    omega
  have hr : ranksOf (updateBall id (fun _ => b') bs) = ranksOf bs := by
    rw [hcc] at h2
    exact add_right_cancel h2
  rw [hfc, hr]
  exact hwf.2

lemma ranksWF_finish_update {bs : List (String × Ball)} {id : String} {b : Ball}
    (hwf : RanksWF bs) (hfb : findBall id bs = some b)
    (hbf : b.finished = false) (bf : Ball) (hbff : bf.finished = true) :
    RanksWF (updateBall id
      (fun _ => { bf with rank := some (finCount (updateBall id (fun _ => bf) bs)) })
      (updateBall id (fun _ => bf) bs)) := by
  have hk1 : (ballKeys (updateBall id (fun _ => bf) bs)).Nodup := by
    rw [ballKeys_updateBall]
    exact hwf.1
  have hf1 : findBall id (updateBall id (fun _ => bf) bs) = some bf := by
    rw [findBall_updateBall_self, hfb]
    rfl
  obtain ⟨c1, c2⟩ := updateBall_counts id bf bs b hwf.1 hfb
  have hfc1 : finCount (updateBall id (fun _ => bf) bs) = finCount bs + 1 := by
    rw [hbf, hbff] at c1
    simpa using c1
  have hr1 : ranksOf (updateBall id (fun _ => bf) bs) = ranksOf bs + rankContrib bf := by
    have hcb : rankContrib b = 0 := by rw [rankContrib, hbf]; rfl
    rw [hcb, add_zero] at c2
    exact c2
  obtain ⟨d1, d2⟩ := updateBall_counts id
    { bf with rank := some (finCount (updateBall id (fun _ => bf) bs)) }
    (updateBall id (fun _ => bf) bs) bf hk1 hf1
  have hbRf : ({ bf with rank := some (finCount (updateBall id (fun _ => bf) bs)) } : Ball).finished
      = true := hbff
  have hfc2 : finCount (updateBall id
      (fun _ => { bf with rank := some (finCount (updateBall id (fun _ => bf) bs)) })
      (updateBall id (fun _ => bf) bs)) = finCount bs + 1 := by
    have e1 : (if bf.finished = true then (1 : ℕ) else 0) = 1 := by simp [hbff]
    rw [e1] at d1
    omega
  have hcbR : rankContrib { bf with rank := some (finCount (updateBall id (fun _ => bf) bs)) }
      = {finCount (updateBall id (fun _ => bf) bs)} := by
    simp [rankContrib, hbff]
  have hr2 : ranksOf (updateBall id
      (fun _ => { bf with rank := some (finCount (updateBall id (fun _ => bf) bs)) })
      (updateBall id (fun _ => bf) bs))
      = ranksOf bs + {finCount (updateBall id (fun _ => bf) bs)} := by
    rw [hr1, hcbR] at d2
    have hrc : ranksOf (updateBall id
        (fun _ => { bf with rank := some (finCount (updateBall id (fun _ => bf) bs)) })
        (updateBall id (fun _ => bf) bs)) + rankContrib bf
        = (ranksOf bs + {finCount (updateBall id (fun _ => bf) bs)}) + rankContrib bf := by
      rw [d2, add_right_comm]
    exact add_right_cancel hrc
  refine ⟨by rw [ballKeys_updateBall]; exact hk1, ?_⟩
  rw [hfc2, hr2, hfc1, hwf.2, Multiset.range_succ, Multiset.map_cons, add_comm,
    Multiset.singleton_add]

lemma processBall_eq_of_none {st : ServerState × List (String × ImpulseKind)} {id : String}
    (path : List Vec2) (finishY : ℝ) (bodies : String → BodyRead) (now : ℤ)
    (h : findBall id st.1.balls = none) :
    processBall path finishY bodies now st id = st := by
  unfold processBall
  rw [h]

lemma processBall_eq_of_finished {st : ServerState × List (String × ImpulseKind)}
    {id : String} {ball : Ball}
    (path : List Vec2) (finishY : ℝ) (bodies : String → BodyRead) (now : ℤ)
    (h : findBall id st.1.balls = some ball) (hfin : ball.finished = true) :
    processBall path finishY bodies now st id = st := by
  simp [processBall, h, hfin]

lemma processBall_ranksWF (path : List Vec2) (finishY : ℝ) (bodies : String → BodyRead)
    (now : ℤ) (st : ServerState × List (String × ImpulseKind)) (id : String)
    (hwf : RanksWF st.1.balls) :
    RanksWF (processBall path finishY bodies now st id).1.balls := by
  cases hfb : findBall id st.1.balls with
  | none => rw [processBall_eq_of_none path finishY bodies now hfb]; exact hwf
  | some ball =>
    by_cases hfin : ball.finished = true
    · rw [processBall_eq_of_finished path finishY bodies now hfb hfin]; exact hwf
    · have hfin' : ball.finished = false := by
        cases hb : ball.finished
        · rfl
        · exact absurd hb hfin
      simp only [processBall, hfb, hfin', Bool.false_eq_true, if_false]
      by_cases hcross : (bodies id).position.y > finishY
      · rw [if_pos hcross]
        exact ranksWF_finish_update hwf hfb hfin'
          { id := ball.id, position := (bodies id).position, velocity := (bodies id).velocity,
            angle := (bodies id).angle,
            progress := calculateProgress (bodies id).position path,
            finished := true, finishTime := some (now - st.1.startTime.getD now),
            rank := ball.rank }
          rfl
      · rw [if_neg hcross]
        refine ranksWF_updateBall_preserve hwf hfb _ ?_ ?_
        · exact hfin'.symm
        · rfl

lemma foldl_processBall_ranksWF (path : List Vec2) (finishY : ℝ)
    (bodies : String → BodyRead) (now : ℤ) :
    ∀ (ids : List String) (st : ServerState × List (String × ImpulseKind)),
      RanksWF st.1.balls →
      RanksWF ((ids.foldl (processBall path finishY bodies now) st).1.balls) := by
  intro ids
  induction ids with
  | nil => intro st h; exact h
  | cons a ids ih =>
    intro st h
    rw [List.foldl_cons]
    exact ih _ (processBall_ranksWF path finishY bodies now st a h)

lemma raceTick_ranksWF (path : List Vec2) (finishY : ℝ) (bodies : String → BodyRead)
    (now : ℤ) (s : ServerState) (hwf : RanksWF s.balls) :
    RanksWF ((raceTick path finishY bodies now s).1.balls) := by
  rw [raceTick]
  by_cases hst : s.status = RaceStatus.racing
  · rw [if_pos hst, maybeScheduleEnd_fst_balls]
    exact foldl_processBall_ranksWF path finishY bodies now s.ballBodies (s, []) hwf
  · rw [if_neg hst]
    exact hwf

/-- C2: over any sequence of tick updates with arbitrary physics read-backs,
rank assignment keeps the finisher ranks a permutation of `{1, ..., N}`: if the
race state is well formed (distinct ball keys, ranks of the finished balls
exactly `{1, ..., finCount}` — in particular a fresh race where nothing has
finished), then after the ticks the multiset of assigned ranks is again exactly
`{1, ..., N}` for `N` the number of finished racers, with no duplicates; each
finisher received `count of racers already finished + 1` at the moment its
finished flag was set. -/
theorem c2_finisher_ranks_permutation (path : List Vec2) (finishY : ℝ)
    (inputs : List TickInput) (s : ServerState) (hwf : RanksWF s.balls) :
    RanksWF ((runTicks path finishY inputs s).balls) := by
  induction inputs generalizing s with
  | nil => exact hwf
  | cons i inputs ih =>
    exact ih ((raceTick path finishY i.bodies i.now s).1)
      (raceTick_ranksWF path finishY i.bodies i.now s hwf)

/-- Fresh unfinished racer record as initialised by `startRace`. -/
noncomputable def demoBall (pid : String) : Ball :=
  { id := pid, position := ⟨400, 80⟩, velocity := ⟨0, 0⟩, angle := 0, progress := 0,
    finished := false, finishTime := none, rank := none }

/-- Racing server state with two fresh racers. -/
noncomputable def demoState : ServerState :=
  { status := RaceStatus.racing, countdown := 0,
    balls := [("a", demoBall "a"), ("b", demoBall "b")], startTime := some 0,
    ballBodies := ["a", "b"], ballStuckTime := fun _ => 0, raceEndTimeout := false,
    countdownInterval := false, players := ["a", "b"] }

/-- Physics oracle placing every body past the finish line, at rest. -/
noncomputable def demoTickInput : TickInput :=
  { bodies := fun _ => { position := ⟨400, 5000⟩, velocity := ⟨0, 0⟩, angle := 0 },
    now := 1000 }

/-- Witness for C2: the racing two-ball state is well formed, and stays so
after a tick whose oracle pushes both balls past the finish line. -/
theorem c2_finisher_ranks_permutation_witness :
    RanksWF demoState.balls ∧
    RanksWF ((runTicks [⟨400, 0⟩, ⟨400, 5000⟩] 4880 [demoTickInput] demoState).balls) := by
  have h0 : RanksWF demoState.balls := by
    constructor
    · show (["a", "b"] : List String).Nodup
      decide
    · rfl
  exact ⟨h0, c2_finisher_ranks_permutation _ _ _ _ h0⟩

/-- Number of impulses of a given kind applied to a given racer in a tick's
output. -/
def impulseCount (id : String) (kind : ImpulseKind)
    (l : List (String × ImpulseKind)) : ℕ :=
  l.countP fun e => decide (e.1 = id ∧ e.2 = kind)

lemma impulseCount_append (id : String) (kind : ImpulseKind)
    (l l' : List (String × ImpulseKind)) :
    impulseCount id kind (l ++ l') = impulseCount id kind l + impulseCount id kind l' :=
  List.countP_append _ _ _

lemma impulseCount_self (id : String) (kind : ImpulseKind) :
    impulseCount id kind [(id, kind)] = 1 := by
  simp [impulseCount]

lemma impulseCount_single_ne {id id' : String} (kind kind' : ImpulseKind)
    (h : id' ≠ id) : impulseCount id kind [(id', kind')] = 0 := by
  simp [impulseCount, h]

lemma impulseCount_single_kind_ne (id id' : String) {kind kind' : ImpulseKind}
    (h : kind' ≠ kind) : impulseCount id kind [(id', kind')] = 0 := by
  simp [impulseCount, h]

lemma processBall_other (path : List Vec2) (finishY : ℝ) (bodies : String → BodyRead)
    (now : ℤ) (st : ServerState × List (String × ImpulseKind)) (id id' : String)
    (h : id' ≠ id) :
    (processBall path finishY bodies now st id').1.ballStuckTime id
        = st.1.ballStuckTime id
    ∧ findBall id (processBall path finishY bodies now st id').1.balls
        = findBall id st.1.balls
    ∧ (processBall path finishY bodies now st id').1.startTime = st.1.startTime
    ∧ ∀ kind, impulseCount id kind (processBall path finishY bodies now st id').2
        = impulseCount id kind st.2 := by
  have hne2 : id ≠ id' := fun e => h e.symm
  cases hfb : findBall id' st.1.balls with
  | none =>
    rw [processBall_eq_of_none path finishY bodies now hfb]
    exact ⟨rfl, rfl, rfl, fun _ => rfl⟩
  | some ball =>
    by_cases hfin : ball.finished = true
    · rw [processBall_eq_of_finished path finishY bodies now hfb hfin]
      exact ⟨rfl, rfl, rfl, fun _ => rfl⟩
    · have hfin' : ball.finished = false := by
        cases hb : ball.finished
        · rfl
        · exact absurd hb hfin
      simp only [processBall, hfb, hfin', Bool.false_eq_true, if_false]
      refine ⟨?_, ?_, trivial, ?_⟩
      · split_ifs <;> simp [hne2]
      · split_ifs with hc
        · rw [findBall_updateBall_ne id id' hne2, findBall_updateBall_ne id id' hne2]
        · rw [findBall_updateBall_ne id id' hne2]
      · intro kind
        split_ifs <;>
          first
            | rfl
            | rw [impulseCount_append, impulseCount_single_ne _ _ h, Nat.add_zero]

lemma foldl_processBall_other (path : List Vec2) (finishY : ℝ)
    (bodies : String → BodyRead) (now : ℤ) (id : String) :
    ∀ (ids : List String) (st : ServerState × List (String × ImpulseKind)),
      id ∉ ids →
      ((ids.foldl (processBall path finishY bodies now) st).1.ballStuckTime id
          = st.1.ballStuckTime id
      ∧ findBall id (ids.foldl (processBall path finishY bodies now) st).1.balls
          = findBall id st.1.balls
      ∧ ∀ kind, impulseCount id kind (ids.foldl (processBall path finishY bodies now) st).2
          = impulseCount id kind st.2) := by
  intro ids
  induction ids with
  | nil => intro st _; exact ⟨rfl, rfl, fun _ => rfl⟩
  | cons a ids ih =>
    intro st hmem
    have ha : a ≠ id := fun e => hmem (by rw [e]; exact List.mem_cons_self _ _)
    have h2 : id ∉ ids := fun hm => hmem (List.mem_cons_of_mem _ hm)
    obtain ⟨p1, p2, _, p4⟩ := processBall_other path finishY bodies now st id a ha
    obtain ⟨q1, q2, q3⟩ := ih (processBall path finishY bodies now st a) h2
    rw [List.foldl_cons]
    exact ⟨q1.trans p1, q2.trans p2, fun kind => (q3 kind).trans (p4 kind)⟩

lemma raceTick_localize (path : List Vec2) (finishY : ℝ) (bodies : String → BodyRead)
    (now : ℤ) (s : ServerState) (id : String)
    (hst : s.status = RaceStatus.racing) (hnd : s.ballBodies.Nodup)
    (hmem : id ∈ s.ballBodies) :
    ∃ pre : ServerState × List (String × ImpulseKind),
      pre.1.ballStuckTime id = s.ballStuckTime id ∧
      findBall id pre.1.balls = findBall id s.balls ∧
      (∀ kind, impulseCount id kind pre.2 = 0) ∧
      (raceTick path finishY bodies now s).1.ballStuckTime id
        = (processBall path finishY bodies now pre id).1.ballStuckTime id ∧
      ∀ kind, impulseCount id kind (raceTick path finishY bodies now s).2
        = impulseCount id kind (processBall path finishY bodies now pre id).2 := by
  obtain ⟨l1, l2, hsplit⟩ := List.append_of_mem hmem
  rw [hsplit] at hnd
  have hnds := List.nodup_append.mp hnd
  have hid2 : id ∉ l2 := (List.nodup_cons.mp hnds.2.1).1
  have hid1 : id ∉ l1 := fun hm => hnds.2.2 hm (List.mem_cons_self _ _)
  have hpre := foldl_processBall_other path finishY bodies now id l1 (s, []) hid1
  refine ⟨l1.foldl (processBall path finishY bodies now) (s, []),
    hpre.1, hpre.2.1, fun kind => hpre.2.2 kind, ?_, ?_⟩
  · rw [raceTick, if_pos hst, maybeScheduleEnd_fst_ballStuckTime, hsplit,
      List.foldl_append, List.foldl_cons]
    exact (foldl_processBall_other path finishY bodies now id l2 _ hid2).1
  · intro kind
    rw [raceTick, if_pos hst, maybeScheduleEnd_snd, hsplit,
      List.foldl_append, List.foldl_cons]
    exact (foldl_processBall_other path finishY bodies now id l2 _ hid2).2.2 kind

lemma processBall_self_slow (path : List Vec2) (finishY : ℝ)
    (bodies : String → BodyRead) (now : ℤ)
    (st : ServerState × List (String × ImpulseKind)) (id : String) (ball : Ball)
    (hfb : findBall id st.1.balls = some ball) (hfin : ball.finished = false)
    (hsp : Real.sqrt ((bodies id).velocity.x ^ 2 + (bodies id).velocity.y ^ 2) < 0.2)
    (hcnt : st.1.ballStuckTime id + 1 ≤ 120) :
    (processBall path finishY bodies now st id).1.ballStuckTime id
        = st.1.ballStuckTime id + 1
    ∧ (processBall path finishY bodies now st id).2 = st.2 := by
  simp only [processBall, hfb, hfin, Bool.false_eq_true, if_false]
  constructor
  · rw [if_pos hsp, if_neg (by omega : ¬ st.1.ballStuckTime id + 1 > 120)]
    simp
  · rw [if_pos hsp, if_neg (by omega : ¬ st.1.ballStuckTime id + 1 > 120)]

lemma processBall_self_overflow (path : List Vec2) (finishY : ℝ)
    (bodies : String → BodyRead) (now : ℤ)
    (st : ServerState × List (String × ImpulseKind)) (id : String) (ball : Ball)
    (hfb : findBall id st.1.balls = some ball) (hfin : ball.finished = false)
    (hsp : Real.sqrt ((bodies id).velocity.x ^ 2 + (bodies id).velocity.y ^ 2) < 0.2)
    (hcnt : st.1.ballStuckTime id + 1 > 120) :
    (processBall path finishY bodies now st id).1.ballStuckTime id = 0
    ∧ (processBall path finishY bodies now st id).2
        = st.2 ++ [(id, ImpulseKind.stallNudge)] := by
  simp only [processBall, hfb, hfin, Bool.false_eq_true, if_false]
  constructor
  · rw [if_pos hsp, if_pos hcnt]
    simp
  · rw [if_pos hsp, if_pos hcnt]

lemma processBall_self_fast (path : List Vec2) (finishY : ℝ)
    (bodies : String → BodyRead) (now : ℤ)
    (st : ServerState × List (String × ImpulseKind)) (id : String) (ball : Ball)
    (hfb : findBall id st.1.balls = some ball) (hfin : ball.finished = false)
    (hsp : ¬ Real.sqrt ((bodies id).velocity.x ^ 2 + (bodies id).velocity.y ^ 2) < 0.2) :
    (processBall path finishY bodies now st id).1.ballStuckTime id = 0
    ∧ ((processBall path finishY bodies now st id).2 = st.2
      ∨ (processBall path finishY bodies now st id).2
          = st.2 ++ [(id, ImpulseKind.periodicJitter)]) := by
  simp only [processBall, hfb, hfin, Bool.false_eq_true, if_false]
  constructor
  · rw [if_neg hsp]
    simp
  · rw [if_neg hsp]
    by_cases hjit : now % 3000 < 20
    · right
      rw [if_pos hjit]
    · left
      rw [if_neg hjit]

/-- C6: stall monitor behaviour on one racing tick, for any unfinished racer.
Below speed 0.2 the stall counter is incremented; once it exceeds 120
consecutive low-speed ticks (counter reaches 121) exactly one randomized nudge
impulse is applied and the counter resets to 0; while at most 120 the
incremented counter is kept with no impulse; at or above speed 0.2 the counter
resets to 0 immediately with no stall-path impulse. Consecutiveness is exactly
the counter semantics: any fast tick restarts the count. -/
theorem c6_stall_monitor (path : List Vec2) (finishY : ℝ) (bodies : String → BodyRead)
    (now : ℤ) (s : ServerState) (id : String) (ball : Ball)
    (hst : s.status = RaceStatus.racing)
    (hnd : s.ballBodies.Nodup) (hmem : id ∈ s.ballBodies)
    (hfb : findBall id s.balls = some ball) (hfin : ball.finished = false) :
    (Real.sqrt ((bodies id).velocity.x ^ 2 + (bodies id).velocity.y ^ 2) < 0.2 →
        s.ballStuckTime id + 1 > 120 →
        (raceTick path finishY bodies now s).1.ballStuckTime id = 0 ∧
        impulseCount id ImpulseKind.stallNudge (raceTick path finishY bodies now s).2 = 1) ∧
    (Real.sqrt ((bodies id).velocity.x ^ 2 + (bodies id).velocity.y ^ 2) < 0.2 →
        s.ballStuckTime id + 1 ≤ 120 →
        (raceTick path finishY bodies now s).1.ballStuckTime id = s.ballStuckTime id + 1 ∧
        impulseCount id ImpulseKind.stallNudge (raceTick path finishY bodies now s).2 = 0) ∧
    (¬ Real.sqrt ((bodies id).velocity.x ^ 2 + (bodies id).velocity.y ^ 2) < 0.2 →
        (raceTick path finishY bodies now s).1.ballStuckTime id = 0 ∧
        impulseCount id ImpulseKind.stallNudge (raceTick path finishY bodies now s).2 = 0) := by
  obtain ⟨pre, hp1, hp2, hp3, hp4, hp5⟩ :=
    raceTick_localize path finishY bodies now s id hst hnd hmem
  have hfbp : findBall id pre.1.balls = some ball := hp2.trans hfb
  refine ⟨?_, ?_, ?_⟩
  · intro hsp hcnt
    obtain ⟨e1, e2⟩ := processBall_self_overflow path finishY bodies now pre id ball
      hfbp hfin hsp (by rw [hp1]; exact hcnt)
    constructor
    · rw [hp4, e1]
    · rw [hp5 _, e2, impulseCount_append, hp3 _, impulseCount_self]
  · intro hsp hcnt
    obtain ⟨e1, e2⟩ := processBall_self_slow path finishY bodies now pre id ball
      hfbp hfin hsp (by rw [hp1]; exact hcnt)
    constructor
    · rw [hp4, e1, hp1]
    · rw [hp5 _, e2, hp3 _]
  · intro hsp
    obtain ⟨e1, e2⟩ := processBall_self_fast path finishY bodies now pre id ball
      hfbp hfin hsp
    constructor
    · rw [hp4, e1]
    · rcases e2 with e2 | e2
      · rw [hp5 _, e2, hp3 _]
      · rw [hp5 _, e2, impulseCount_append, hp3 _,
          impulseCount_single_kind_ne id id (by decide), Nat.add_zero]

/-- Racing server state with one unfinished racer whose stall counter already
reads 120 consecutive low-speed ticks. -/
noncomputable def demoStuckState : ServerState :=
  { status := RaceStatus.racing, countdown := 0,
    balls := [("a", demoBall "a")], startTime := some 0,
    ballBodies := ["a"], ballStuckTime := fun _ => 120, raceEndTimeout := false,
    countdownInterval := false, players := ["a"] }

/-- Physics oracle leaving the body at rest mid-course. -/
noncomputable def demoStuckInput : BodyRead :=
  { position := ⟨400, 100⟩, velocity := ⟨0, 0⟩, angle := 0 }

/-- Witness for C6: a racer at rest whose counter stands at 120 receives, on
the next tick, exactly one stall nudge and a counter reset to 0. -/
theorem c6_stall_monitor_witness :
    Real.sqrt ((demoStuckInput.velocity.x : ℝ) ^ 2 + demoStuckInput.velocity.y ^ 2) < 0.2 ∧
    demoStuckState.ballStuckTime "a" + 1 > 120 ∧
    (raceTick [] 4880 (fun _ => demoStuckInput) 1000 demoStuckState).1.ballStuckTime "a" = 0 ∧
    impulseCount "a" ImpulseKind.stallNudge
      (raceTick [] 4880 (fun _ => demoStuckInput) 1000 demoStuckState).2 = 1 := by
  have hsp : Real.sqrt ((demoStuckInput.velocity.x : ℝ) ^ 2
      + demoStuckInput.velocity.y ^ 2) < 0.2 := by
    have hz : (demoStuckInput.velocity.x : ℝ) ^ 2 + demoStuckInput.velocity.y ^ 2 = 0 := by
      show (0 : ℝ) ^ 2 + (0 : ℝ) ^ 2 = 0
      norm_num
    rw [hz, Real.sqrt_zero]
    norm_num
  have hcnt : demoStuckState.ballStuckTime "a" + 1 > 120 := by
    show (120 : ℕ) + 1 > 120
    omega
  have h := (c6_stall_monitor [] 4880 (fun _ => demoStuckInput) 1000 demoStuckState
    "a" (demoBall "a") rfl (by decide) (by decide) rfl rfl).1 hsp hcnt
  exact ⟨hsp, hcnt, h.1, h.2⟩

lemma foldl_preserves_finished (path : List Vec2) (finishY : ℝ)
    (bodies : String → BodyRead) (now : ℤ) (id : String) (ball : Ball)
    (hfin : ball.finished = true) :
    ∀ (ids : List String) (st : ServerState × List (String × ImpulseKind)),
      findBall id st.1.balls = some ball →
      findBall id (ids.foldl (processBall path finishY bodies now) st).1.balls
        = some ball := by
  intro ids
  induction ids with
  | nil => intro st h; exact h
  | cons a ids ih =>
    intro st h
    rw [List.foldl_cons]
    apply ih
    by_cases ha : a = id
    · rw [ha, processBall_eq_of_finished path finishY bodies now h hfin]
      exact h
    · rw [(processBall_other path finishY bodies now st id a ha).2.1]
      exact h

/-- C7: once a racer's `finished` flag is set, every subsequent tick update
leaves its race-state record entirely unchanged — the very same `Ball` value
(position, velocity, angle, progress, finishTime, rank) is still bound to its
id after the tick, whatever the physics read-backs say. -/
theorem c7_finished_ball_frozen (path : List Vec2) (finishY : ℝ)
    (bodies : String → BodyRead) (now : ℤ) (s : ServerState) (id : String) (ball : Ball)
    (hfb : findBall id s.balls = some ball) (hfin : ball.finished = true) :
    findBall id ((raceTick path finishY bodies now s).1.balls) = some ball := by
  rw [raceTick]
  by_cases hst : s.status = RaceStatus.racing
  · rw [if_pos hst, maybeScheduleEnd_fst_balls]
    exact foldl_preserves_finished path finishY bodies now id ball hfin
      s.ballBodies (s, []) hfb
  · rw [if_neg hst]
    exact hfb

/-- Finished racer record frozen at the finish line. -/
noncomputable def demoFinishedBall : Ball :=
  { id := "a", position := ⟨400, 4900⟩, velocity := ⟨0, 3⟩, angle := 1, progress := 4900,
    finished := true, finishTime := some 500, rank := some 1 }

/-- Racing server state holding one finished racer. -/
noncomputable def demoFinishedState : ServerState :=
  { status := RaceStatus.racing, countdown := 0,
    balls := [("a", demoFinishedBall)], startTime := some 0,
    ballBodies := ["a"], ballStuckTime := fun _ => 0, raceEndTimeout := true,
    countdownInterval := false, players := ["a"] }

/-- Witness for C7: a tick whose oracle reports a completely different
transform leaves the finished racer's record bound unchanged. -/
theorem c7_finished_ball_frozen_witness :
    findBall "a" ((raceTick [] 4880
        (fun _ => { position := ⟨17, 23⟩, velocity := ⟨5, 5⟩, angle := 2 }) 9999
        demoFinishedState).1.balls) = some demoFinishedBall :=
  c7_finished_ball_frozen [] 4880
    (fun _ => { position := ⟨17, 23⟩, velocity := ⟨5, 5⟩, angle := 2 }) 9999
    demoFinishedState "a" demoFinishedBall rfl rfl

/-- Circular static peg (src/types `Peg`). -/
structure Peg where
  position : Vec2
  radius : ℝ

/-- Circular static bumper with its own restitution (src/types `Bumper`). -/
structure Bumper where
  position : Vec2
  radius : ℝ
  restitution : ℝ

/-- Obstacle shape tag (src/types `Obstacle.type`). -/
inductive ObsType
  | rectangle
  | circle
  | polygon
  deriving DecidableEq

/-- Static/kinematic obstacle description (src/types `Obstacle`); optional
fields mirror the optional TypeScript properties. -/
structure Obstacle where
  type : ObsType
  position : Vec2
  size : Option Vec2 := none
  radius : Option ℝ := none
  angle : Option ℝ := none
  angularVelocity : Option ℝ := none
  restitution : Option ℝ := none
  friction : Option ℝ := none

/-- Finish rectangle (src/types `MapData.finishZone`). -/
structure FinishZone where
  x : ℝ
  y : ℝ
  width : ℝ
  height : ℝ

/-- Course description (src/types `MapData`). -/
structure MapData where
  id : String
  name : String
  worldSize : Vec2
  gravity : Vec2
  spawnPoints : List Vec2
  staticObstacles : List Obstacle
  pegs : List Peg
  bumpers : List Bumper
  checkpoints : List (List Vec2)
  finishZone : FinishZone
  path : List Vec2

/-- Inner column loop of `makePegGrid` (src/server.ts:20-22): pegs every
`colSpacing` units from the row start while `x < 745`. The loop ranges over
real-valued coordinates, so it is written with a fuel argument large enough to
cover every terminating run used by the course data. -/
noncomputable def pegColsLoop (y colSpacing radius : ℝ) : ℕ → ℝ → List Peg
  | 0, _ => []
  | fuel + 1, x =>
    if x < 745 then
      { position := ⟨x, y⟩, radius := radius } :: pegColsLoop y colSpacing radius fuel (x + colSpacing)
    else []

/-- Outer row loop of `makePegGrid` (src/server.ts:17-24): rows every
`rowSpacing` units while `y < endY`, odd rows offset by half a column. -/
noncomputable def pegRowsLoop (endY rowSpacing colSpacing radius : ℝ) :
    ℕ → ℝ → ℕ → List Peg
  | 0, _, _ => []
  | fuel + 1, y, row =>
    if y < endY then
      pegColsLoop y colSpacing radius 100 (60 + ((row % 2 : ℕ) : ℝ) * (colSpacing / 2))
        ++ pegRowsLoop endY rowSpacing colSpacing radius fuel (y + rowSpacing) (row + 1)
    else []

/-- Peg grid generator `makePegGrid` of src/server.ts:11-26. -/
noncomputable def makePegGrid (startY endY rowSpacing colSpacing radius : ℝ) : List Peg :=
  pegRowsLoop endY rowSpacing colSpacing radius 1000 startY 0

/-- Map 1 "The Gauntlet" (src/server.ts:29-93). -/
noncomputable def map1 : MapData :=
  { id := "map1", name := "The Gauntlet", worldSize := ⟨800, 5000⟩,
    gravity := ⟨0, 1.5⟩,
    spawnPoints := [⟨370, 80⟩, ⟨400, 80⟩, ⟨430, 80⟩],
    staticObstacles := [
    { type := ObsType.rectangle, position := ⟨0, 2500⟩, size := some ⟨40, 5000⟩, angle := some 0 },
    { type := ObsType.rectangle, position := ⟨800, 2500⟩, size := some ⟨40, 5000⟩, angle := some 0 },
    { type := ObsType.rectangle, position := ⟨400, 5020⟩, size := some ⟨800, 40⟩, angle := some 0 },
    { type := ObsType.rectangle, position := ⟨120, 200⟩, size := some ⟨340, 28⟩, angle := some 0.72 },
    { type := ObsType.rectangle, position := ⟨680, 200⟩, size := some ⟨340, 28⟩, angle := some (-0.72) },
    { type := ObsType.rectangle, position := ⟨400, 450⟩, size := some ⟨260, 24⟩, angle := some 0, angularVelocity := some 0.04 },
    { type := ObsType.rectangle, position := ⟨190, 660⟩, size := some ⟨180, 24⟩, angle := some 0, angularVelocity := some (-0.05) },
    { type := ObsType.rectangle, position := ⟨610, 660⟩, size := some ⟨180, 24⟩, angle := some 0, angularVelocity := some 0.05 },
    { type := ObsType.rectangle, position := ⟨220, 900⟩, size := some ⟨380, 38⟩, angle := some 0.30 },
    { type := ObsType.rectangle, position := ⟨580, 1100⟩, size := some ⟨380, 38⟩, angle := some (-0.30) },
    { type := ObsType.rectangle, position := ⟨220, 1300⟩, size := some ⟨380, 38⟩, angle := some 0.30 },
    { type := ObsType.rectangle, position := ⟨580, 1500⟩, size := some ⟨380, 38⟩, angle := some (-0.30) },
    { type := ObsType.circle, position := ⟨200, 1700⟩, radius := some 50, angularVelocity := some 0.12 },
    { type := ObsType.circle, position := ⟨600, 1800⟩, radius := some 50, angularVelocity := some (-0.12) },
    { type := ObsType.circle, position := ⟨400, 1900⟩, radius := some 38, angularVelocity := some 0.18 },
    { type := ObsType.rectangle, position := ⟨148, 2100⟩, size := some ⟨256, 30⟩, angle := some 0.12 },
    { type := ObsType.rectangle, position := ⟨652, 2100⟩, size := some ⟨256, 30⟩, angle := some (-0.12) },
    { type := ObsType.rectangle, position := ⟨400, 2100⟩, size := some ⟨80, 20⟩, angle := some 0, angularVelocity := some 0.12 },
    { type := ObsType.rectangle, position := ⟨600, 2350⟩, size := some ⟨330, 34⟩, angle := some (-0.18) },
    { type := ObsType.rectangle, position := ⟨200, 2550⟩, size := some ⟨330, 34⟩, angle := some 0.18 },
    { type := ObsType.rectangle, position := ⟨600, 2750⟩, size := some ⟨330, 34⟩, angle := some (-0.18) },
    { type := ObsType.rectangle, position := ⟨200, 2950⟩, size := some ⟨330, 34⟩, angle := some 0.18 },
    { type := ObsType.rectangle, position := ⟨400, 3200⟩, size := some ⟨380, 28⟩, angle := some 0, angularVelocity := some 0.03 },
    { type := ObsType.rectangle, position := ⟨220, 3420⟩, size := some ⟨260, 24⟩, angle := some 0, angularVelocity := some (-0.045) },
    { type := ObsType.rectangle, position := ⟨580, 3420⟩, size := some ⟨260, 24⟩, angle := some 0, angularVelocity := some 0.045 },
    { type := ObsType.circle, position := ⟨150, 3650⟩, radius := some 55, angularVelocity := some 0.20 },
    { type := ObsType.circle, position := ⟨400, 3650⟩, radius := some 45, angularVelocity := some (-0.20) },
    { type := ObsType.circle, position := ⟨650, 3650⟩, radius := some 55, angularVelocity := some 0.20 },
    { type := ObsType.rectangle, position := ⟨200, 3900⟩, size := some ⟨380, 44⟩, angle := some 0.45 },
    { type := ObsType.rectangle, position := ⟨600, 4130⟩, size := some ⟨380, 44⟩, angle := some (-0.45) },
    { type := ObsType.rectangle, position := ⟨400, 4370⟩, size := some ⟨320, 26⟩, angle := some 0, angularVelocity := some 0.06 },
    { type := ObsType.circle, position := ⟨200, 4570⟩, radius := some 48, angularVelocity := some (-0.15) },
    { type := ObsType.circle, position := ⟨600, 4570⟩, radius := some 48, angularVelocity := some 0.15 },
    { type := ObsType.rectangle, position := ⟨120, 4760⟩, size := some ⟨200, 28⟩, angle := some 0.15 },
    { type := ObsType.rectangle, position := ⟨680, 4760⟩, size := some ⟨200, 28⟩, angle := some (-0.15) },
    { type := ObsType.rectangle, position := ⟨400, 4760⟩, size := some ⟨64, 18⟩, angle := some 0, angularVelocity := some 0.10 }],
    pegs := [], bumpers := [], checkpoints := [],
    finishZone := { x := 0, y := 4880, width := 800, height := 120 },
    path := [⟨400, 0⟩, ⟨400, 1000⟩, ⟨400, 2000⟩, ⟨400, 3000⟩, ⟨400, 4000⟩, ⟨400, 5000⟩] }

/-- Map 2 "Peg Paradise" (src/server.ts:96-142), the only course with bumpers;
their course data specifies restitutions 1.6 and 1.8, above the energy-gain
limit. -/
noncomputable def map2 : MapData :=
  { id := "map2", name := "Peg Paradise", worldSize := ⟨800, 5000⟩,
    gravity := ⟨0, 1.2⟩,
    spawnPoints := [⟨360, 80⟩, ⟨400, 80⟩, ⟨440, 80⟩],
    staticObstacles := [
    { type := ObsType.rectangle, position := ⟨0, 2500⟩, size := some ⟨40, 5000⟩, angle := some 0 },
    { type := ObsType.rectangle, position := ⟨800, 2500⟩, size := some ⟨40, 5000⟩, angle := some 0 },
    { type := ObsType.rectangle, position := ⟨400, 5020⟩, size := some ⟨800, 40⟩, angle := some 0 },
    { type := ObsType.rectangle, position := ⟨130, 200⟩, size := some ⟨320, 28⟩, angle := some 0.65 },
    { type := ObsType.rectangle, position := ⟨670, 200⟩, size := some ⟨320, 28⟩, angle := some (-0.65) },
    { type := ObsType.rectangle, position := ⟨600, 1000⟩, size := some ⟨200, 24⟩, angle := some (-0.2) },
    { type := ObsType.rectangle, position := ⟨200, 1000⟩, size := some ⟨200, 24⟩, angle := some 0.2 },
    { type := ObsType.rectangle, position := ⟨400, 1600⟩, size := some ⟨260, 28⟩, angle := some 0, angularVelocity := some 0.02 },
    { type := ObsType.rectangle, position := ⟨600, 2200⟩, size := some ⟨200, 24⟩, angle := some (-0.2) },
    { type := ObsType.rectangle, position := ⟨200, 2200⟩, size := some ⟨200, 24⟩, angle := some 0.2 },
    { type := ObsType.rectangle, position := ⟨400, 2800⟩, size := some ⟨260, 28⟩, angle := some 0, angularVelocity := some (-0.02) },
    { type := ObsType.rectangle, position := ⟨600, 3400⟩, size := some ⟨200, 24⟩, angle := some (-0.2) },
    { type := ObsType.rectangle, position := ⟨200, 3400⟩, size := some ⟨200, 24⟩, angle := some 0.2 },
    { type := ObsType.rectangle, position := ⟨400, 4000⟩, size := some ⟨260, 28⟩, angle := some 0, angularVelocity := some 0.03 },
    { type := ObsType.rectangle, position := ⟨600, 4500⟩, size := some ⟨200, 24⟩, angle := some (-0.15) },
    { type := ObsType.rectangle, position := ⟨200, 4500⟩, size := some ⟨200, 24⟩, angle := some 0.15 }],
    pegs := makePegGrid 350 4800 110 80 10,
    bumpers := [
    { position := ⟨400, 700⟩, radius := 28, restitution := 1.8 },
    { position := ⟨200, 1300⟩, radius := 22, restitution := 1.6 },
    { position := ⟨600, 1300⟩, radius := 22, restitution := 1.6 },
    { position := ⟨400, 1900⟩, radius := 28, restitution := 1.8 },
    { position := ⟨150, 2500⟩, radius := 22, restitution := 1.6 },
    { position := ⟨650, 2500⟩, radius := 22, restitution := 1.6 },
    { position := ⟨400, 3100⟩, radius := 28, restitution := 1.8 },
    { position := ⟨200, 3700⟩, radius := 22, restitution := 1.6 },
    { position := ⟨600, 3700⟩, radius := 22, restitution := 1.6 },
    { position := ⟨400, 4250⟩, radius := 28, restitution := 1.8 }],
    checkpoints := [],
    finishZone := { x := 0, y := 4880, width := 800, height := 120 },
    path := [⟨400, 0⟩, ⟨400, 1000⟩, ⟨400, 2000⟩, ⟨400, 3000⟩, ⟨400, 4000⟩, ⟨400, 5000⟩] }

/-- Map 3 "Chaos Canyon" (src/server.ts:145-211). -/
noncomputable def map3 : MapData :=
  { id := "map3", name := "Chaos Canyon", worldSize := ⟨800, 5000⟩,
    gravity := ⟨0, 1.8⟩,
    spawnPoints := [⟨370, 80⟩, ⟨400, 80⟩, ⟨430, 80⟩],
    staticObstacles := [
    { type := ObsType.rectangle, position := ⟨0, 2500⟩, size := some ⟨40, 5000⟩, angle := some 0 },
    { type := ObsType.rectangle, position := ⟨800, 2500⟩, size := some ⟨40, 5000⟩, angle := some 0 },
    { type := ObsType.rectangle, position := ⟨400, 5020⟩, size := some ⟨800, 40⟩, angle := some 0 },
    { type := ObsType.rectangle, position := ⟨110, 200⟩, size := some ⟨300, 28⟩, angle := some 0.78 },
    { type := ObsType.rectangle, position := ⟨690, 200⟩, size := some ⟨300, 28⟩, angle := some (-0.78) },
    { type := ObsType.rectangle, position := ⟨150, 500⟩, size := some ⟨260, 30⟩, angle := some 0.15 },
    { type := ObsType.rectangle, position := ⟨650, 500⟩, size := some ⟨260, 30⟩, angle := some (-0.15) },
    { type := ObsType.rectangle, position := ⟨400, 460⟩, size := some ⟨60, 22⟩, angle := some 0, angularVelocity := some 0.14 },
    { type := ObsType.circle, position := ⟨200, 750⟩, radius := some 60, angularVelocity := some 0.18 },
    { type := ObsType.circle, position := ⟨600, 750⟩, radius := some 60, angularVelocity := some (-0.18) },
    { type := ObsType.rectangle, position := ⟨400, 950⟩, size := some ⟨200, 26⟩, angle := some 0, angularVelocity := some 0.06 },
    { type := ObsType.rectangle, position := ⟨200, 1150⟩, size := some ⟨360, 38⟩, angle := some 0.38 },
    { type := ObsType.rectangle, position := ⟨600, 1350⟩, size := some ⟨360, 38⟩, angle := some (-0.38) },
    { type := ObsType.rectangle, position := ⟨140, 1600⟩, size := some ⟨170, 28⟩, angle := some 0.12 },
    { type := ObsType.rectangle, position := ⟨660, 1600⟩, size := some ⟨170, 28⟩, angle := some (-0.12) },
    { type := ObsType.rectangle, position := ⟨320, 1600⟩, size := some ⟨70, 20⟩, angle := some 0, angularVelocity := some 0.16 },
    { type := ObsType.rectangle, position := ⟨480, 1600⟩, size := some ⟨70, 20⟩, angle := some 0, angularVelocity := some (-0.16) },
    { type := ObsType.rectangle, position := ⟨400, 1900⟩, size := some ⟨400, 26⟩, angle := some 0, angularVelocity := some 0.035 },
    { type := ObsType.rectangle, position := ⟨400, 1900⟩, size := some ⟨26, 400⟩, angle := some 0, angularVelocity := some 0.035 },
    { type := ObsType.circle, position := ⟨150, 2200⟩, radius := some 65, angularVelocity := some 0.22 },
    { type := ObsType.circle, position := ⟨400, 2200⟩, radius := some 55, angularVelocity := some (-0.22) },
    { type := ObsType.circle, position := ⟨650, 2200⟩, radius := some 65, angularVelocity := some 0.22 },
    { type := ObsType.rectangle, position := ⟨200, 2500⟩, size := some ⟨420, 44⟩, angle := some 0.48 },
    { type := ObsType.rectangle, position := ⟨600, 2780⟩, size := some ⟨420, 44⟩, angle := some (-0.48) },
    { type := ObsType.rectangle, position := ⟨200, 3060⟩, size := some ⟨420, 44⟩, angle := some 0.48 },
    { type := ObsType.rectangle, position := ⟨200, 3350⟩, size := some ⟨200, 22⟩, angle := some 0, angularVelocity := some (-0.07) },
    { type := ObsType.rectangle, position := ⟨600, 3350⟩, size := some ⟨200, 22⟩, angle := some 0, angularVelocity := some 0.07 },
    { type := ObsType.rectangle, position := ⟨200, 3550⟩, size := some ⟨200, 22⟩, angle := some 0, angularVelocity := some 0.07 },
    { type := ObsType.rectangle, position := ⟨600, 3550⟩, size := some ⟨200, 22⟩, angle := some 0, angularVelocity := some (-0.07) },
    { type := ObsType.circle, position := ⟨400, 3800⟩, radius := some 80, angularVelocity := some 0.25 },
    { type := ObsType.circle, position := ⟨170, 4020⟩, radius := some 55, angularVelocity := some (-0.20) },
    { type := ObsType.circle, position := ⟨630, 4020⟩, radius := some 55, angularVelocity := some 0.20 },
    { type := ObsType.rectangle, position := ⟨600, 4280⟩, size := some ⟨380, 32⟩, angle := some (-0.22) },
    { type := ObsType.rectangle, position := ⟨200, 4460⟩, size := some ⟨380, 32⟩, angle := some 0.22 },
    { type := ObsType.rectangle, position := ⟨400, 4640⟩, size := some ⟨240, 26⟩, angle := some 0, angularVelocity := some 0.08 },
    { type := ObsType.rectangle, position := ⟨120, 4790⟩, size := some ⟨200, 26⟩, angle := some 0.15 },
    { type := ObsType.rectangle, position := ⟨680, 4790⟩, size := some ⟨200, 26⟩, angle := some (-0.15) }],
    pegs := [], bumpers := [], checkpoints := [],
    finishZone := { x := 0, y := 4880, width := 800, height := 120 },
    path := [⟨400, 0⟩, ⟨400, 1000⟩, ⟨400, 2000⟩, ⟨400, 3000⟩, ⟨400, 4000⟩, ⟨400, 5000⟩] }

/-- The course roster of src/server.ts:213. -/
noncomputable def allMaps : List MapData := [map1, map2, map3]

/-- The single course "Dynamic Descent" of src/unnamed/part_002:316-378; note
its `bumpers` list is empty. -/
noncomputable def sampleMap : MapData :=
  { id := "map1", name := "Dynamic Descent", worldSize := ⟨800, 3000⟩,
    gravity := ⟨0, 1.5⟩,
    spawnPoints := [⟨380, 100⟩, ⟨400, 100⟩, ⟨420, 100⟩],
    staticObstacles := [
    { type := ObsType.rectangle, position := ⟨100, 200⟩, size := some ⟨400, 40⟩, angle := some 0.8 },
    { type := ObsType.rectangle, position := ⟨700, 200⟩, size := some ⟨400, 40⟩, angle := some (-0.8) },
    { type := ObsType.rectangle, position := ⟨400, 500⟩, size := some ⟨200, 30⟩, angle := some 0, angularVelocity := some 0.05 },
    { type := ObsType.rectangle, position := ⟨200, 800⟩, size := some ⟨150, 30⟩, angle := some 0, angularVelocity := some (-0.03) },
    { type := ObsType.rectangle, position := ⟨600, 800⟩, size := some ⟨150, 30⟩, angle := some 0, angularVelocity := some 0.03 },
    { type := ObsType.rectangle, position := ⟨200, 1100⟩, size := some ⟨300, 60⟩, angle := some 0.2 },
    { type := ObsType.rectangle, position := ⟨600, 1400⟩, size := some ⟨300, 60⟩, angle := some (-0.2) },
    { type := ObsType.rectangle, position := ⟨400, 1700⟩, size := some ⟨300, 30⟩, angle := some 0, angularVelocity := some 0.02 },
    { type := ObsType.rectangle, position := ⟨400, 2000⟩, size := some ⟨500, 60⟩, angle := some 0.5 },
    { type := ObsType.rectangle, position := ⟨400, 2300⟩, size := some ⟨500, 60⟩, angle := some (-0.5) },
    { type := ObsType.circle, position := ⟨200, 2450⟩, radius := some 40, angularVelocity := some 0.15 },
    { type := ObsType.circle, position := ⟨600, 2450⟩, radius := some 40, angularVelocity := some (-0.15) },
    { type := ObsType.rectangle, position := ⟨150, 2650⟩, size := some ⟨300, 40⟩, angle := some 0 },
    { type := ObsType.rectangle, position := ⟨650, 2650⟩, size := some ⟨300, 40⟩, angle := some 0 },
    { type := ObsType.rectangle, position := ⟨400, 2650⟩, size := some ⟨100, 20⟩, angle := some 0, angularVelocity := some 0.1 },
    { type := ObsType.circle, position := ⟨300, 2850⟩, radius := some 30, angularVelocity := some 0.2 },
    { type := ObsType.circle, position := ⟨500, 2850⟩, radius := some 30, angularVelocity := some (-0.2) },
    { type := ObsType.rectangle, position := ⟨0, 1500⟩, size := some ⟨40, 3000⟩, angle := some 0 },
    { type := ObsType.rectangle, position := ⟨800, 1500⟩, size := some ⟨40, 3000⟩, angle := some 0 },
    { type := ObsType.rectangle, position := ⟨400, 3000⟩, size := some ⟨800, 40⟩, angle := some 0 }],
    pegs := [], bumpers := [], checkpoints := [],
    finishZone := { x := 0, y := 2900, width := 800, height := 100 },
    path := [⟨400, 0⟩, ⟨400, 500⟩, ⟨400, 1000⟩, ⟨400, 1500⟩, ⟨400, 2000⟩, ⟨400, 2500⟩, ⟨400, 3000⟩] }

/-- Shape of a created physics body. -/
inductive BodyShape
  | rectangleBody (size : Vec2)
  | circleBody (radius : ℝ)

/-- Observable configuration of one Matter.js body as created by `setupMap`:
shape, pose, static flag, material coefficients, and (for kinematic spinners)
the overridden mass and prescribed angular velocity. -/
structure PhysBody where
  shape : BodyShape
  position : Vec2
  angle : ℝ
  isStatic : Bool
  restitution : ℝ
  friction : Option ℝ
  mass : Option ℝ
  angularVelocity : Option ℝ

/-- Static (non-spinning) obstacle body of src/server.ts:318-331: defaults
`restitution = 0.5` for circles and `0.3` for rectangles, `friction = 0.05`;
a polygon type creates no body (the source leaves `body` undefined). -/
noncomputable def staticObstacleBody (obs : Obstacle) : Option PhysBody :=
  match obs.type with
  | ObsType.rectangle =>
    some { shape := BodyShape.rectangleBody (obs.size.getD ⟨0, 0⟩),
           position := obs.position, angle := obs.angle.getD 0, isStatic := true,
           restitution := obs.restitution.getD 0.3,
           friction := some (obs.friction.getD 0.05), mass := none,
           angularVelocity := none }
  | ObsType.circle =>
    some { shape := BodyShape.circleBody (obs.radius.getD 0),
           position := obs.position, angle := obs.angle.getD 0, isStatic := true,
           restitution := obs.restitution.getD 0.5,
           friction := some (obs.friction.getD 0.05), mass := none,
           angularVelocity := none }
  | ObsType.polygon => none

/-- Obstacle body of src/server.ts:289-334. A truthy `angularVelocity` (present
and non-zero, per JavaScript truthiness) builds the kinematic spinner: a
non-static body with mass forced to `1e6` and the prescribed angular velocity;
otherwise the static branch applies. -/
noncomputable def obstacleBody (obs : Obstacle) : Option PhysBody :=
  match obs.angularVelocity with
  | some av =>
    if av = 0 then staticObstacleBody obs
    else
      match obs.type with
      | ObsType.rectangle =>
        some { shape := BodyShape.rectangleBody (obs.size.getD ⟨0, 0⟩),
               position := obs.position, angle := obs.angle.getD 0, isStatic := false,
               restitution := obs.restitution.getD 0.3,
               friction := some (obs.friction.getD 0.05), mass := some 1000000,
               angularVelocity := some av }
      | ObsType.circle =>
        some { shape := BodyShape.circleBody (obs.radius.getD 0),
               position := obs.position, angle := obs.angle.getD 0, isStatic := false,
               restitution := obs.restitution.getD 0.3,
               friction := some (obs.friction.getD 0.05), mass := some 1000000,
               angularVelocity := some av }
      | ObsType.polygon => none
  | none => staticObstacleBody obs

/-- Peg body of src/server.ts:337-343: static, restitution 0.8. -/
noncomputable def pegBody (peg : Peg) : PhysBody :=
  { shape := BodyShape.circleBody peg.radius, position := peg.position, angle := 0,
    isStatic := true, restitution := 0.8, friction := none, mass := none,
    angularVelocity := none }

/-- Bumper body of src/server.ts:345-352: static, restitution clamped with
`Math.min(bumper.restitution, 1.0)`. -/
noncomputable def bumperBody (bumper : Bumper) : PhysBody :=
  { shape := BodyShape.circleBody bumper.radius, position := bumper.position,
    angle := 0, isStatic := true, restitution := min bumper.restitution 1,
    friction := none, mass := none, angularVelocity := none }

/-- World contents built by `setupMap` of src/server.ts:282-353: obstacle
bodies, then peg bodies, then bumper bodies. -/
noncomputable def setupMapBodies (m : MapData) : List PhysBody :=
  m.staticObstacles.filterMap obstacleBody ++ m.pegs.map pegBody
    ++ m.bumpers.map bumperBody

/-- JavaScript `a || d` over an optional number: `0` is falsy and also falls
back to the default. -/
noncomputable def orFalsy (v : Option ℝ) (d : ℝ) : ℝ :=
  match v with
  | some r => if r = 0 then d else r
  | none => d

/-- Obstacle body of src/unnamed/part_002:492-519: created with
`isStatic: !obs.angularVelocity` and, when `angularVelocity` is truthy,
immediately forced static by `Matter.Body.setStatic(body, true)` — so the net
body is always static; defaults `restitution || 0.5` (rectangle) or `|| 0.8`
(circle) and `friction || 0.1`; polygons create nothing. -/
noncomputable def obstacleBody2 (obs : Obstacle) : Option PhysBody :=
  match obs.type with
  | ObsType.rectangle =>
    some { shape := BodyShape.rectangleBody (obs.size.getD ⟨0, 0⟩),
           position := obs.position, angle := obs.angle.getD 0, isStatic := true,
           restitution := orFalsy obs.restitution 0.5,
           friction := some (orFalsy obs.friction 0.1), mass := none,
           angularVelocity := none }
  | ObsType.circle =>
    some { shape := BodyShape.circleBody (obs.radius.getD 0),
           position := obs.position, angle := obs.angle.getD 0, isStatic := true,
           restitution := orFalsy obs.restitution 0.8,
           friction := some (orFalsy obs.friction 0.1), mass := none,
           angularVelocity := none }
  | ObsType.polygon => none

/-- Bumper body of src/unnamed/part_002:531-537: static, restitution passed
through unclamped. -/
noncomputable def bumperBody2 (bumper : Bumper) : PhysBody :=
  { shape := BodyShape.circleBody bumper.radius, position := bumper.position,
    angle := 0, isStatic := true, restitution := bumper.restitution,
    friction := none, mass := none, angularVelocity := none }

/-- World contents built by `setupMap` of src/unnamed/part_002:487-538. -/
noncomputable def setupMapBodies2 (m : MapData) : List PhysBody :=
  m.staticObstacles.filterMap obstacleBody2 ++ m.pegs.map pegBody
    ++ m.bumpers.map bumperBody2

/-- C9: every bumper body is static and carries restitution
`min(bumper.restitution, 1.0)`, hence never above `1.0` even when the course
data specifies more: this holds for every bumper of every course fed to the
src/server.ts `setupMap` (the only courses with bumpers; map2's ten bumpers,
declared at 1.8 and 1.6, all end up at restitution exactly 1); the
src/unnamed/part_002 `setupMap` does not clamp, but its only course,
`sampleMap`, declares no bumpers, so it creates no bumper body at all. -/
theorem c9_bumper_bodies_clamped :
    (∀ bumper : Bumper, (bumperBody bumper).isStatic = true ∧
      (bumperBody bumper).restitution = min bumper.restitution 1 ∧
      (bumperBody bumper).restitution ≤ 1) ∧
    (∀ bumper ∈ map2.bumpers, (bumperBody bumper).restitution = 1) ∧
    sampleMap.bumpers.map bumperBody2 = [] := by
  refine ⟨?_, ?_, rfl⟩
  · intro bumper
    refine ⟨rfl, rfl, ?_⟩
    show min bumper.restitution 1 ≤ 1
    exact min_le_right _ _
  · intro bumper hmem
    have hr : (1 : ℝ) ≤ bumper.restitution := by
      simp only [map2, List.mem_cons, List.not_mem_nil, or_false] at hmem
      rcases hmem with h | h | h | h | h | h | h | h | h | h <;> rw [h] <;> norm_num
    show min bumper.restitution 1 = 1
    exact min_eq_right hr

/-- Witness for C9: the first bumper of map2 (declared restitution 1.8) is in
the bumper list, and its created body is static with restitution exactly 1. -/
theorem c9_bumper_bodies_clamped_witness :
    (⟨⟨400, 700⟩, 28, 1.8⟩ : Bumper) ∈ map2.bumpers ∧
    (bumperBody ⟨⟨400, 700⟩, 28, 1.8⟩).restitution = 1 ∧
    (bumperBody ⟨⟨400, 700⟩, 28, 1.8⟩).isStatic = true := by
  refine ⟨?_, ?_, ?_⟩
  · show (⟨⟨400, 700⟩, 28, 1.8⟩ : Bumper) ∈ map2.bumpers
    simp [map2]
  · exact c9_bumper_bodies_clamped.2.1 ⟨⟨400, 700⟩, 28, 1.8⟩ (by simp [map2])
  · exact (c9_bumper_bodies_clamped.1 ⟨⟨400, 700⟩, 28, 1.8⟩).1

/-- One row of the final standings payload (`raceEnd` results; contestant
display names are presentation data and omitted). -/
structure RaceResult where
  playerId : String
  rank : ℕ
  time : ℤ

/-- Outbound socket events relevant to the race lifecycle. -/
inductive Event
  | raceUpdate
  | raceEnd (results : List RaceResult)
  | raceStart
  | playerJoined (id : String)
  | playerLeft (id : String)

/-- JavaScript `ball.rank || 999` (`0` falsy). -/
def rankOr999 (b : Ball) : ℕ :=
  match b.rank with
  | some r => if r = 0 then 999 else r
  | none => 999

/-- JavaScript `ball.rank || idx + 1` (`0` falsy). -/
def rankOrIdx (b : Ball) (idx : ℕ) : ℕ :=
  match b.rank with
  | some r => if r = 0 then idx + 1 else r
  | none => idx + 1

/-- The `orderedBalls` comparator of `finalizeRace`: finished before
unfinished; among finished, ascending `rank || 999`; among unfinished,
descending progress. `finishOrderLE a b` says a need not come after b. -/
noncomputable def finishOrderLE (a b : Ball) : Bool :=
  if a.finished ≠ b.finished then a.finished
  else if a.finished then decide (rankOr999 a ≤ rankOr999 b)
  else decide (b.progress ≤ a.progress)

/-- Insertion step of the standings sort. -/
noncomputable def insertOrdered (x : String × Ball) :
    List (String × Ball) → List (String × Ball)
  | [] => [x]
  | y :: rest =>
    if finishOrderLE x.2 y.2 then x :: y :: rest else y :: insertOrdered x rest

/-- Sort `Object.entries(raceState.balls).sort(comparator)` as an insertion sort. -/
noncomputable def sortByFinishOrder (l : List (String × Ball)) : List (String × Ball) :=
  l.foldr insertOrdered []

/-- Function `finalizeRace()` of src/unnamed/part_002:464-485 (identical in
src/server.ts:259-280): guarded on `status === 'racing'`, otherwise it sets
status `finished`, zeroes the countdown, sorts the balls, and emits a state
snapshot followed by a `raceEnd` results payload. -/
noncomputable def finalizeRace (s : ServerState) : ServerState × List Event :=
  if s.status ≠ RaceStatus.racing then (s, [])
  else
    let results := (sortByFinishOrder s.balls).enum.map fun p =>
      ({ playerId := p.2.1, rank := rankOrIdx p.2.2 p.1,
         time := p.2.2.finishTime.getD 0 } : RaceResult)
    ({ s with status := RaceStatus.finished, countdown := 0 },
      [Event.raceUpdate, Event.raceEnd results])

/-- The 500 ms finalize debounce callback (src/unnamed/part_002:645-650): when
the timer is pending it nulls the handle and calls `finalizeRace`. -/
noncomputable def finalizeFire (s : ServerState) : ServerState × List Event :=
  if s.raceEndTimeout then finalizeRace { s with raceEndTimeout := false }
  else (s, [])

/-- The 1 s countdown interval callback (src/unnamed/part_002:972-980,
identical in src/server.ts:541-549): decrement the countdown and, once it is
at most 0, clear the interval, switch to racing and stamp `startTime`. The
callback runs whenever the interval is still live, whatever the status. -/
noncomputable def countdownFire (now : ℤ) (s : ServerState) : ServerState × List Event :=
  if s.countdownInterval then
    if s.countdown - 1 ≤ 0 then
      ({ s with
          countdown := s.countdown - 1, countdownInterval := false,
          status := RaceStatus.racing, startTime := some now }, [Event.raceUpdate])
    else ({ s with countdown := s.countdown - 1 }, [Event.raceUpdate])
  else (s, [])

/-- Racer spawned by `startRace`: spawn point plus random horizontal offset,
zero velocity, progress 0, unfinished. -/
noncomputable def spawnBall (pid : String) (spawn : Vec2) (offset : ℝ) : Ball :=
  { id := pid, position := ⟨spawn.x + offset, spawn.y⟩, velocity := ⟨0, 0⟩, angle := 0,
    progress := 0, finished := false, finishTime := none, rank := none }

/-- Ball map built by `startRace`: one ball per roster entry at
`spawnPoints[index % spawnPoints.length]`, offsets supplied by the random
oracle. -/
noncomputable def spawnBalls (m : MapData) (roster : List String) (jitters : ℕ → ℝ) :
    List (String × Ball) :=
  roster.enum.map fun p =>
    (p.2, spawnBall p.2 (m.spawnPoints.getD (p.1 % m.spawnPoints.length) ⟨0, 0⟩)
      (jitters p.1))

/-- The `startRace` handler of src/unnamed/part_002:931-983: rejected while
racing or in countdown; otherwise it clears a pending finalize timer, rebuilds
the world from `sampleMap` (physics world not part of this state), replaces
the ball map with freshly spawned racers for every roster entry, enters the
countdown at 3 and schedules the countdown interval. `startTime` and the stall
counters are left as they were. -/
noncomputable def startRaceB (jitters : ℕ → ℝ) (s : ServerState) :
    ServerState × List Event :=
  if s.status = RaceStatus.racing ∨ s.status = RaceStatus.countdown then (s, [])
  else
    ({ s with
        raceEndTimeout := false,
        balls := spawnBalls sampleMap s.players jitters,
        ballBodies := s.players,
        status := RaceStatus.countdown,
        countdown := 3,
        countdownInterval := true },
      [Event.raceUpdate, Event.raceStart])

/-- The `removePlayer` handler of src/unnamed/part_002:903-929: unknown ids
are ignored; otherwise the contestant, its stall counter, its body and its
ball record are removed, and if that left the ball map empty while the status
was countdown or racing, the race is forced back to waiting with the countdown
zeroed and the start time cleared. The countdown interval flag is NOT touched:
the interval handle lives in the `startRace` closure and cannot be cleared
here. -/
noncomputable def removePlayer (pid : String) (s : ServerState) :
    ServerState × List Event :=
  if pid ∉ s.players then (s, [])
  else
    let s1 := { s with
      players := s.players.erase pid,
      ballStuckTime := fun j => if j = pid then 0 else s.ballStuckTime j,
      ballBodies := s.ballBodies.erase pid,
      balls := s.balls.filter (fun p => p.1 != pid) }
    let s2 :=
      if s1.balls.length = 0 ∧
          (s1.status = RaceStatus.countdown ∨ s1.status = RaceStatus.racing) then
        { s1 with status := RaceStatus.waiting, countdown := 0, startTime := none }
      else s1
    (s2, [Event.playerLeft pid, Event.raceUpdate])

/-- The `join` handler (src/unnamed/part_002:884-888): `players.set` keeps an
existing key's position and appends a new one. -/
noncomputable def joinPlayer (pid : String) (s : ServerState) :
    ServerState × List Event :=
  (if pid ∈ s.players then s else { s with players := s.players ++ [pid] },
    [Event.playerJoined pid])

/-- The steps of the part_002 server that can touch the race state. -/
inductive ServerEvent
  | join (pid : String)
  | startRace (jitters : ℕ → ℝ)
  | remove (pid : String)
  | countdownTick (now : ℤ)
  | finalizeTimer
  | tick (bodies : String → BodyRead) (now : ℤ)

/-- Applying one step to the server state. -/
noncomputable def stepB (s : ServerState) : ServerEvent → ServerState
  | ServerEvent.join pid => (joinPlayer pid s).1
  | ServerEvent.startRace j => (startRaceB j s).1
  | ServerEvent.remove pid => (removePlayer pid s).1
  | ServerEvent.countdownTick now => (countdownFire now s).1
  | ServerEvent.finalizeTimer => (finalizeFire s).1
  | ServerEvent.tick bodies now =>
    (raceTick sampleMap.path sampleMap.finishZone.y bodies now s).1

/-- A sequence of server steps. -/
noncomputable def runB (s : ServerState) (evs : List ServerEvent) : ServerState :=
  evs.foldl stepB s

/-- The initial module-level state of the part_002 server. -/
noncomputable def initStateB : ServerState :=
  { status := RaceStatus.waiting, countdown := 0, balls := [], startTime := none,
    ballBodies := [], ballStuckTime := fun _ => 0, raceEndTimeout := false,
    countdownInterval := false, players := [] }

/-- Deterministic spawn-offset oracle. -/
noncomputable def zeroJitter : ℕ → ℝ := fun _ => 0

/-- C3 failing run: join one contestant, start a race (status `countdown`,
interval scheduled), remove the contestant — the race is forced back to
`waiting` with an empty racer set, but the countdown interval cannot be
cleared — then the stale interval fires once: the countdown drops to -1 and
the callback performs a `waiting → racing` transition (stamping a start time)
with zero racers, an edge outside the claimed transition relation. -/
theorem c3_stale_countdown_fires_waiting_to_racing :
    (runB initStateB [ServerEvent.join "p1", ServerEvent.startRace zeroJitter,
        ServerEvent.remove "p1"]).status = RaceStatus.waiting ∧
    (runB initStateB [ServerEvent.join "p1", ServerEvent.startRace zeroJitter,
        ServerEvent.remove "p1"]).balls = [] ∧
    (runB initStateB [ServerEvent.join "p1", ServerEvent.startRace zeroJitter,
        ServerEvent.remove "p1"]).countdownInterval = true ∧
    (runB initStateB [ServerEvent.join "p1", ServerEvent.startRace zeroJitter,
        ServerEvent.remove "p1", ServerEvent.countdownTick 4000]).status
      = RaceStatus.racing ∧
    (runB initStateB [ServerEvent.join "p1", ServerEvent.startRace zeroJitter,
        ServerEvent.remove "p1", ServerEvent.countdownTick 4000]).balls = [] := by
  refine ⟨rfl, rfl, rfl, rfl, rfl⟩

/-- C10: `finalizeRace` is atomically guarded on the status: called with any
status other than `racing` (waiting after a forced reset, countdown of a new
race, or already finished) it returns immediately — the state is unchanged and
no event, in particular no `raceEnd` results event, is emitted; accordingly
the debounce callback then alters nothing but its own pending-timer handle. -/
theorem c10_finalizeRace_guarded (s : ServerState) (h : s.status ≠ RaceStatus.racing) :
    finalizeRace s = (s, []) ∧
    (finalizeFire s).1.status = s.status ∧
    (finalizeFire s).1.balls = s.balls ∧
    (finalizeFire s).2 = [] := by
  have hg : finalizeRace s = (s, []) := by rw [finalizeRace, if_pos h]
  refine ⟨hg, ?_, ?_, ?_⟩ <;>
    · rw [finalizeFire]
      by_cases hp : s.raceEndTimeout = true
      · rw [if_pos hp, finalizeRace, if_pos (show ({ s with raceEndTimeout := false }
          : ServerState).status ≠ RaceStatus.racing from h)]
      · rw [if_neg hp]

/-- Witness for C10: the initial waiting state (with a pending debounce flag
set) is left untouched by `finalizeRace`. -/
theorem c10_finalizeRace_guarded_witness :
    initStateB.status ≠ RaceStatus.racing ∧ finalizeRace initStateB = (initStateB, []) :=
  ⟨by decide, (c10_finalizeRace_guarded initStateB (by decide)).1⟩

/-- Server state of src/server.ts with the extra module-level variables of
that variant: the selected map id inside `raceState`, the currently selected
`MapData`, the engine's gravity setting and the world contents built by
`setupMap`. -/
structure ServerAState where
  status : RaceStatus
  countdown : ℤ
  mapId : String
  balls : List (String × Ball)
  startTime : Option ℤ
  ballBodies : List String
  ballStuckTime : String → ℕ
  raceEndTimeout : Bool
  countdownInterval : Bool
  players : List String
  currentMap : MapData
  engineGravityY : ℝ
  world : List PhysBody

/-- The `startRace` handler of src/server.ts:493-552: rejected while racing or
in countdown; otherwise the requested map is resolved (falling back to
`allMaps[0]`), gravity and `raceState.mapId` updated, a pending finalize timer
cleared, the world rebuilt, the racers respawned and the countdown started. -/
noncomputable def startRaceA (mapId : String) (jitters : ℕ → ℝ) (s : ServerAState) :
    ServerAState × List Event :=
  if s.status = RaceStatus.racing ∨ s.status = RaceStatus.countdown then (s, [])
  else
    let m := (allMaps.find? fun mm => mm.id == mapId).getD map1
    ({ s with
        currentMap := m,
        engineGravityY := m.gravity.y,
        mapId := m.id,
        raceEndTimeout := false,
        world := setupMapBodies m,
        balls := spawnBalls m s.players jitters,
        ballBodies := s.players,
        status := RaceStatus.countdown,
        countdown := 3,
        countdownInterval := true },
      [Event.raceUpdate, Event.raceStart])

/-- C4: a `startRace` command received while the status is `countdown` or
`racing` is a complete no-op in both server variants: the entire state —
status, countdown, mapId, balls, startTime, the physics world, the selected
map, gravity, and the countdown-interval flag (no new timer) — is returned
unchanged and no event is emitted. -/
theorem c4_startRace_noop_while_live :
    (∀ (mapId : String) (jitters : ℕ → ℝ) (s : ServerAState),
        s.status = RaceStatus.countdown ∨ s.status = RaceStatus.racing →
        startRaceA mapId jitters s = (s, [])) ∧
    (∀ (jitters : ℕ → ℝ) (s : ServerState),
        s.status = RaceStatus.countdown ∨ s.status = RaceStatus.racing →
        startRaceB jitters s = (s, [])) := by
  constructor
  · intro mapId jitters s h
    rw [startRaceA, if_pos h.symm]
  · intro jitters s h
    rw [startRaceB, if_pos h.symm]

/-- Mid-countdown state of the src/server.ts variant. -/
noncomputable def demoAState : ServerAState :=
  { status := RaceStatus.countdown, countdown := 2, mapId := "map1", balls := [],
    startTime := none, ballBodies := [], ballStuckTime := fun _ => 0,
    raceEndTimeout := false, countdownInterval := true, players := ["a"],
    currentMap := map1, engineGravityY := 1.5, world := setupMapBodies map1 }

/-- Witness for C4: a `startRace` for a different map arriving mid-countdown
leaves the whole state (including world and selected map) unchanged. -/
theorem c4_startRace_noop_while_live_witness :
    (demoAState.status = RaceStatus.countdown ∨ demoAState.status = RaceStatus.racing) ∧
    startRaceA "map2" zeroJitter demoAState = (demoAState, []) :=
  ⟨Or.inl rfl,
    c4_startRace_noop_while_live.1 "map2" zeroJitter demoAState (Or.inl rfl)⟩

end BallDrop
